import Mathlib

/-!
# ScamShield-AI: verification of the hybrid risk-scoring pipeline and analytics

Shallow embedding of the core of the ScamShield-AI repository
(`backend/main.py`, `backend/detection/rule_detector.py`,
`backend/detection/language_processor.py`, `backend/analytics/tracker.py`,
`backend/core/config.py`).

Modelling conventions:
* Python strings are `List Char` (`Str`); Python floats are `ℚ` (the scores in
  the source are decimal constants and the spec reasons about them as exact
  numbers).
* The regular expressions in the source are a small fixed set of shapes
  (word-bounded literal alternations, digit runs, one email pattern, one URL
  pattern).  Each is translated into a dedicated executable matcher that
  follows the regex semantics (leftmost scan, greedy alternative order,
  non-overlapping continuation) for exactly the patterns the source uses.
* `datetime.now()` timestamps are an explicit `now : ℚ` parameter measured in
  hours; the sha256 message fingerprint and the ISO timestamp string of a
  result are presentation-only fields not modelled (no claim mentions them).
* The sklearn statistical classifier (`EnhancedMLDetector`) is an external
  numerical component; the pipeline model takes its output probability as an
  oracle parameter `ml_prob : Str → ℚ`, exactly as the spec treats it
  ("assuming ML also scores high").
-/

namespace ScamShield

/-- Python strings, modelled as lists of characters. -/
abbrev Str := List Char

/-- `str.lower()` (character-wise; the source only feeds ASCII rule text). -/
def lowerStr (s : Str) : Str := s.map Char.toLower

/-- Python regex `\w` word character (ASCII fragment: `[A-Za-z0-9_]`). -/
def isWordChar (c : Char) : Bool := c.isAlphanum || c = '_'

/-- Word-ness of an optional neighbouring character; `none` (string edge)
counts as non-word, as in the `\b` semantics. -/
def wordAt : Option Char → Bool
  | none => false
  | some c => isWordChar c

/-- Python regex `\s` whitespace (ASCII fragment: space, TAB, LF, VT, FF, CR). -/
def pyIsSpace (c : Char) : Bool :=
  c = ' ' || c.toNat = 9 || c.toNat = 10 || c.toNat = 11 || c.toNat = 12 || c.toNat = 13

/--
A pattern of the rule table: an ordered list of literal alternatives
(the order is the regex backtracking order), optionally anchored as
`\b(alt₁|alt₂|…)\b`.  Every alternative of an anchored pattern in the
source's tables begins and ends with a word character, for which `\b`
is equivalent to "the neighbouring character, if any, is not a word
character".
-/
structure Pat where
  alts : List Str
  bounded : Bool
deriving DecidableEq, Repr

/-- `\bw\b` for a single literal `w`. -/
def wordPat (w : String) : Pat := ⟨[w.toList], true⟩

/-- `\b(w₁|w₂|…)\b`, alternatives in backtracking order. -/
def altPat (ws : List String) : Pat := ⟨ws.map String.toList, true⟩

/-- An unanchored literal alternation (no `\b`): plain substring match. -/
def subPat (ws : List String) : Pat := ⟨ws.map String.toList, false⟩

/--
Try to match a pattern at position `i` of `t`; returns the matched text
(the regex `match.group()`).  Alternatives are tried in order, each with
its boundary conditions, which is exactly the backtracking order of the
source's alternations.
-/
def matchAt (p : Pat) (t : Str) (i : Nat) : Option Str :=
  p.alts.findSome? fun alt =>
    if alt.isPrefixOf (t.drop i)
        && (!p.bounded
            || (!wordAt ((t.take i).getLast?) && !wordAt ((t.drop (i + alt.length)).head?)))
    then some alt else none

/--
All matches of a pattern in `t`, in position order (one per starting
position).  For the source's anchored patterns, matches can never overlap
(their interiors are word characters, so no match can start strictly inside
another), hence this list agrees with `re.finditer`'s non-overlapping scan;
for the unanchored URL pattern only existence (`re.search`) is ever used.
-/
def allMatches (p : Pat) (t : Str) : List Str :=
  (List.range (t.length + 1)).filterMap (fun i => matchAt p t i)

/-- `re.search(p, t)` succeeds. -/
def search (p : Pat) (t : Str) : Bool := !(allMatches p t).isEmpty

/-- `re.search(p, t).group()`: the leftmost match, if any. -/
def firstGroup (p : Pat) (t : Str) : Option Str := (allMatches p t).head?

/-- `w` occurs in `t` as a plain substring (at any position). -/
def SubstrOccurs (w t : Str) : Prop := ∃ pre post, t = pre ++ w ++ post

/-- `w` occurs in `t` as a whole word: the neighbouring characters on both
sides, when they exist, are not word characters. -/
def WholeWordOccurs (w t : Str) : Prop :=
  ∃ pre post, t = pre ++ w ++ post ∧
    (∀ c, pre.getLast? = some c → isWordChar c = false) ∧
    (∀ c, post.head? = some c → isWordChar c = false)

/-! ## Rule detector (`backend/detection/rule_detector.py`) -/

namespace RuleDetector

/-- `self.BRANDS` (`_load_rules`): brand categories with their patterns. -/
def BRANDS : List (String × List Pat) :=
  [("pakistan_financial",
      [wordPat "easypaisa", wordPat "jazzcash", wordPat "hbl", wordPat "ubl",
       wordPat "meezan", wordPat "ally", wordPat "faysal", wordPat "habib"]),
   ("global_financial",
      [wordPat "paypal", wordPat "stripe", wordPat "western union"]),
   ("global_tech",
      [wordPat "whatsapp", wordPat "google", wordPat "amazon"]),
   ("government",
      [wordPat "fbr", wordPat "nadra", wordPat "irs"])]

/-- The brand loop `for category, patterns in BRANDS: for pattern in patterns`
iterates over these (category, pattern) pairs in this order. -/
def BRAND_PAIRS : List (String × Pat) :=
  (BRANDS.map (fun c => c.2.map (fun p => (c.1, p)))).flatten

/-- `self.URGENCY_KEYWORDS`: `urgent(ly)?` tries the `ly` suffix first
(greedy `?`); `expir(e|ing|ed)` tries the alternatives in source order. -/
def URGENCY_KEYWORDS : List Pat :=
  [altPat ["urgently", "urgent"],
   wordPat "immediately", wordPat "asap", wordPat "now", wordPat "today",
   altPat ["expire", "expiring", "expired"]]

/-- `self.SENSITIVE_DATA`. -/
def SENSITIVE_DATA : List Pat :=
  [wordPat "otp", wordPat "pin", wordPat "password", wordPat "cvv", wordPat "cnic"]

/-- `r'bit\.ly|tinyurl'` — note: no `\b` anchors in the source. -/
def URL_PATTERN : Pat := subPat ["bit.ly", "tinyurl"]

/-- Result of `LanguageProcessor.process` (a Python dict in the source). -/
structure LanguageInfo where
  language : String
  confidence : ℚ
  processed_text : Str
  original_text : Str
deriving DecidableEq, Repr

/-- Result of `RuleDetector.analyze` (a Python dict in the source). -/
structure RuleResult where
  score : ℚ
  triggered_rules : List String
  keywords : List Str
deriving DecidableEq, Repr

/-- Accumulator of the brand detection loop (`triggered_rules`, `keywords`,
`score` mutated in the Python loop body). -/
structure BrandAcc where
  rules : List String
  kws : List Str
  score : ℚ
deriving DecidableEq, Repr

/-- One iteration of the brand loop body:
`if re.search(pattern, text_lower): triggered_rules.append(...);
score += 0.15; match = re.search(...); if match: keywords.append(match.group())`. -/
def brandStep (t : Str) (acc : BrandAcc) (cp : String × Pat) : BrandAcc :=
  if search cp.2 t then
    { rules := acc.rules ++ ["brand_impersonation_" ++ cp.1],
      kws := acc.kws ++ (firstGroup cp.2 t).toList,
      score := acc.score + 0.15 }
  else acc

/-- Urgency loop: total number of `re.finditer` matches over all urgency
patterns. -/
def urgency_count (t : Str) : Nat :=
  (URGENCY_KEYWORDS.map (fun p => (allMatches p t).length)).sum

/-- Urgency loop: the matched groups appended to `keywords`, in loop order. -/
def urgency_matches (t : Str) : List Str :=
  (URGENCY_KEYWORDS.map (fun p => allMatches p t)).flatten

/-- Sensitive-data loop with `break`: the first pattern that matches wins;
returns its `re.search(...).group()` when one fires. -/
def sensitive_hit (t : Str) : Option (Option Str) :=
  SENSITIVE_DATA.findSome? fun p => if search p t then some (firstGroup p t) else none

/-- `RuleDetector.analyze(message, lang_info)`.  The `lang_info` argument is
received (as in the source) but never used by the rule logic; all matching is
done on `text_lower = message.lower()`.  `list(set(...))` is modelled by
`List.dedup` (set semantics; Python's iteration order of a `set` is
unspecified, `dedup` is a deterministic representative). -/
def analyze (message : Str) (lang_info : LanguageInfo) : RuleResult :=
  let text_lower := lowerStr message
  let b := BRAND_PAIRS.foldl (brandStep text_lower) ⟨[], [], 0⟩
  let ucount := urgency_count text_lower
  let kws1 := b.kws ++ urgency_matches text_lower
  let rules1 := if 0 < ucount then b.rules ++ ["urgency_language"] else b.rules
  let score1 := if 0 < ucount then b.score + min ((ucount : ℚ) * 0.1) 0.25 else b.score
  let step2 :=
    match sensitive_hit text_lower with
    | some g => (rules1 ++ ["sensitive_data_request"], kws1 ++ g.toList, score1 + 0.25)
    | none => (rules1, kws1, score1)
  let step3 :=
    if search URL_PATTERN text_lower then
      (step2.1 ++ ["shortened_url"], step2.2.1 ++ ["shortened_url".toList], step2.2.2 + 0.25)
    else step2
  { score := min step3.2.2 1,
    triggered_rules := step3.1.dedup,
    keywords := step3.2.1.dedup }

/-! Closed forms of the four scoring stages, used to state what `analyze`
computes (proved equal to the loop above in the theorems section). -/

/-- Number of (category, pattern) pairs whose pattern matches: the brand loop
adds `0.15` once for every such pair. -/
def brandMatchCount (t : Str) : Nat := BRAND_PAIRS.countP (fun cp => search cp.2 t)

/-- Rule identifiers appended by the brand loop, in loop order. -/
def brandRulesL (t : Str) : List String :=
  (BRAND_PAIRS.filter (fun cp => search cp.2 t)).map (fun cp => "brand_impersonation_" ++ cp.1)

/-- Keywords appended by the brand loop, in loop order. -/
def brandKwsL (t : Str) : List Str :=
  (BRAND_PAIRS.filter (fun cp => search cp.2 t)).filterMap (fun cp => firstGroup cp.2 t)

/-- Urgency contribution to the score. -/
def urgencyScoreQ (t : Str) : ℚ :=
  if 0 < urgency_count t then min ((urgency_count t : ℚ) * 0.1) 0.25 else 0

/-- Rule identifier appended by the urgency stage. -/
def urgencyRulesL (t : Str) : List String :=
  if 0 < urgency_count t then ["urgency_language"] else []

/-- Sensitive-data contribution to the score (flat, at most once). -/
def sensitiveScoreQ (t : Str) : ℚ := if (sensitive_hit t).isSome then 0.25 else 0

/-- Rule identifier appended by the sensitive-data stage. -/
def sensitiveRulesL (t : Str) : List String :=
  if (sensitive_hit t).isSome then ["sensitive_data_request"] else []

/-- Keyword appended by the sensitive-data stage. -/
def sensitiveKwsL (t : Str) : List Str :=
  match sensitive_hit t with
  | some g => g.toList
  | none => []

/-- Shortened-URL contribution to the score. -/
def urlScoreQ (t : Str) : ℚ := if search URL_PATTERN t then 0.25 else 0

/-- Rule identifier appended by the URL stage. -/
def urlRulesL (t : Str) : List String :=
  if search URL_PATTERN t then ["shortened_url"] else []

/-- Keyword appended by the URL stage. -/
def urlKwsL (t : Str) : List Str :=
  if search URL_PATTERN t then ["shortened_url".toList] else []

/-- The rule score as the claim words it: `+0.15` once per brand *category*
containing at least one matching pattern (this is the claim's reading, to be
compared with the per-pattern accumulation the source performs). -/
def claimPerCategoryScore (t : Str) : ℚ :=
  min ((0.15 : ℚ) * (BRANDS.countP (fun c => c.2.any (fun p => search p t)) : Nat)
        + urgencyScoreQ t + sensitiveScoreQ t + urlScoreQ t) 1

/-- The shortened-URL pattern as the claim words it: anchored at word
boundaries (to be compared with the source's unanchored pattern). -/
def claimBoundedURL : Pat := altPat ["bit.ly", "tinyurl"]

/-- A fixed `LanguageInfo` value, used where a concrete argument is needed
(the rule detector ignores this argument). -/
def someLangInfo : LanguageInfo := ⟨"english", 0.95, [], []⟩

end RuleDetector

/-! ## Language processor (`backend/detection/language_processor.py`) -/

namespace LanguageProcessor

open RuleDetector (LanguageInfo)

/-- `self.URDU_RANGE = (0x0600, 0x06FF)`. -/
def URDU_LO : Nat := 0x0600

def URDU_HI : Nat := 0x06FF

/-- `self.ROMAN_URDU_WORDS`. -/
def ROMAN_URDU_WORDS : List Str :=
  ["aap".toList, "apka".toList, "hai".toList, "mein".toList,
   "ko".toList, "ka".toList, "foran".toList, "abhi".toList]

/-- Python substring containment `w in t`. -/
def pyContains (w t : Str) : Bool :=
  (List.range (t.length + 1)).any (fun i => w.isPrefixOf (t.drop i))

/-- Python `str.split()` with no argument: split on whitespace runs,
discarding empty fields. -/
def pySplit (s : Str) : List Str := (s.splitOnP pyIsSpace).filter (· ≠ [])

/-- Python `str.strip()`: remove leading and trailing whitespace. -/
def pyStrip (s : Str) : Str :=
  ((s.dropWhile pyIsSpace).reverse.dropWhile pyIsSpace).reverse

/-- `re.sub(r'\s+', ' ', s)`, structurally: a whitespace character opens a
run and emits one `' '`; further characters of the run emit nothing. -/
def collapseWsAux : Bool → Str → Str
  | _, [] => []
  | inRun, c :: rest =>
    if pyIsSpace c then
      if inRun then collapseWsAux true rest else ' ' :: collapseWsAux true rest
    else c :: collapseWsAux false rest

/-- `re.sub(r'\s+', ' ', s)`: collapse whitespace runs to single spaces. -/
def collapseWs (s : Str) : Str := collapseWsAux false s

/-- Count of characters of `text` in the Urdu Unicode block. -/
def urduCharCount (text : Str) : Nat :=
  text.countP (fun c => URDU_LO ≤ c.toNat && c.toNat ≤ URDU_HI)

/-- Number of distinct Roman-Urdu marker words contained (as substrings) in
the lowercased text. -/
def romanCount (text : Str) : Nat :=
  ROMAN_URDU_WORDS.countP (fun w => pyContains w (lowerStr text))

/-- `LanguageProcessor._detect_language`: returns (language, confidence). -/
def detect_language (text : Str) : String × ℚ :=
  if 5 < urduCharCount text then
    ("urdu", (urduCharCount text : ℚ) / ((max text.length 1 : Nat) : ℚ))
  else if 2 ≤ romanCount text then
    ("roman_urdu", (romanCount text : ℚ) / ((max (pySplit text).length 1 : Nat) : ℚ))
  else ("english", 0.95)

/-- The translation table of `_translate_roman_urdu`, in source order. -/
def TRANSLATIONS : List (Str × Str) :=
  [("foran".toList, "immediately".toList), ("abhi".toList, "now".toList),
   ("aap".toList, "you".toList), ("apka".toList, "your".toList),
   ("hai".toList, "is".toList)]

/-- One whole-word replacement step `re.sub(r'\b' + w + r'\b', repl, t)`.
All dictionary entries are alphabetic, so `\b` amounts to the neighbouring
character not being a word character.  The scan is left to right and
non-overlapping; fuel is the remaining length (each step consumes at least
one character). -/
def subWordAux (w repl : Str) : Nat → Option Char → Str → Str
  | 0, _, s => s
  | _ + 1, _, [] => []
  | fuel + 1, prev, c :: rest =>
    if w ≠ [] && !wordAt prev && w.isPrefixOf (c :: rest)
        && !wordAt (((c :: rest).drop w.length).head?) then
      repl ++ subWordAux w repl fuel ((c :: rest).take w.length).getLast? ((c :: rest).drop w.length)
    else c :: subWordAux w repl fuel (some c) rest

/-- `re.sub(r'\b…\b', repl, t)` for a literal word. -/
def subWord (w repl t : Str) : Str := subWordAux w repl t.length none t

/-- `LanguageProcessor._translate_roman_urdu`. -/
def translate_roman_urdu (text : Str) : Str :=
  TRANSLATIONS.foldl (fun t wr => subWord wr.1 wr.2 t) text

/-- `LanguageProcessor.process(message, language_hint)`. -/
def process (message : Str) (language_hint : String) : LanguageInfo :=
  let lc : String × ℚ :=
    if language_hint = "auto" then detect_language message else (language_hint, 1)
  let processed := collapseWs (pyStrip (lowerStr message))
  let processed := if lc.1 = "roman_urdu" then translate_roman_urdu processed else processed
  { language := lc.1, confidence := lc.2,
    processed_text := processed, original_text := message }

end LanguageProcessor

/-! ## Detection engine and configuration
(`backend/main.py`, `backend/core/config.py`) -/

namespace Engine

open RuleDetector (LanguageInfo RuleResult)

/-- `settings.ML_WEIGHT` default. -/
def ML_WEIGHT : ℚ := 0.65

/-- `settings.RULE_WEIGHT` default. -/
def RULE_WEIGHT : ℚ := 0.35

/-- `settings.SCAM_THRESHOLD` default. -/
def SCAM_THRESHOLD : ℚ := 0.75

/-- `settings.SUSPICIOUS_THRESHOLD` default. -/
def SUSPICIOUS_THRESHOLD : ℚ := 0.45

/-- `settings.MAX_MESSAGE_LENGTH` default. -/
def MAX_MESSAGE_LENGTH : Nat := 5000

/-- `DetectionEngine._calculate_final_score`. -/
def calculate_final_score (ml_score rule_score : ℚ) : ℚ :=
  min (ml_score * ML_WEIGHT + rule_score * RULE_WEIGHT) 1

/-- `DetectionEngine._classify`. -/
def classify (score : ℚ) : String :=
  if SCAM_THRESHOLD ≤ score then "SCAM"
  else if SUSPICIOUS_THRESHOLD ≤ score then "SUSPICIOUS"
  else "SAFE"

/-- `DetectionEngine._calculate_confidence`. -/
def calculate_confidence (ml_score rule_score : ℚ) : ℚ :=
  if ml_score = 0 then min (rule_score * 1.2) 1
  else
    let agreement := 1 - |ml_score - rule_score|
    let avg_score := (ml_score + rule_score) / 2
    min (avg_score * agreement * 1.5) 1

/-- Python `round(q, ndigits)` idealised over `ℚ`: round half to even at
`d` decimal digits (the source rounds floats; the payload values here are
exact decimals). -/
def roundHalfEven (q : ℚ) : ℤ :=
  let f := q.floor
  let frac := q - f
  if frac < 1/2 then f
  else if 1/2 < frac then f + 1
  else if Even f then f else f + 1

/-- `round(q, d)`. -/
def pyRound (q : ℚ) (d : Nat) : ℚ := (roundHalfEven (q * 10 ^ d) : ℚ) / 10 ^ d

/-- An explanation line of `_generate_explanations`; the f-string formatting
of the source is abstracted to a constructor carrying the same data. -/
inductive ExplanationItem
  | aiDetection (ml_score : ℚ)
  | aiAlert (ml_score : ℚ)
  | languageNote (language : String) (confidence : ℚ)
  | ruleExplanation (text : String)
  | multipleRedFlags
  | noIndicators
deriving DecidableEq, Repr

/-- `self.EXPLANATIONS` of the rule detector (`get_rule_explanation` returns
`''` for unknown rules); the emoji description strings are abstracted to
their rule key prefixed with `expl:`. -/
def EXPLANATIONS : List (String × String) :=
  [("brand_impersonation_pakistan_financial", "expl:brand_impersonation_pakistan_financial"),
   ("brand_impersonation_global_financial", "expl:brand_impersonation_global_financial"),
   ("brand_impersonation_global_tech", "expl:brand_impersonation_global_tech"),
   ("brand_impersonation_government", "expl:brand_impersonation_government"),
   ("urgency_language", "expl:urgency_language"),
   ("sensitive_data_request", "expl:sensitive_data_request"),
   ("shortened_url", "expl:shortened_url")]

/-- `RuleDetector.get_rule_explanation`. -/
def get_rule_explanation (rule : String) : String :=
  ((EXPLANATIONS.lookup rule).getD "")

/-- `DetectionEngine._generate_explanations`. -/
def generate_explanations (ml_enabled : Bool) (ml_score : ℚ)
    (rule_result : RuleResult) (lang_info : LanguageInfo) : List ExplanationItem :=
  let e1 : List ExplanationItem :=
    if ml_enabled && decide (0 < ml_score) then
      if 0.75 < ml_score then [.aiDetection ml_score]
      else if 0.45 < ml_score then [.aiAlert ml_score]
      else []
    else []
  let e2 : List ExplanationItem :=
    if lang_info.language ≠ "english" then
      [.languageNote lang_info.language lang_info.confidence]
    else []
  let e3 : List ExplanationItem :=
    rule_result.triggered_rules.filterMap fun rule =>
      let expl := get_rule_explanation rule
      if expl ≠ "" then some (.ruleExplanation expl) else none
  let e4 : List ExplanationItem :=
    if 3 ≤ rule_result.triggered_rules.length then [.multipleRedFlags] else []
  let es := e1 ++ e2 ++ e3 ++ e4
  if es = [] then [.noIndicators] else es

/-- A safety recommendation line of `_generate_recommendations`; the fixed
literal strings of the source are abstracted to an enumeration. -/
inductive RecommendationItem
  | scamDoNotRespond | scamDelete | scamReport
  | suspiciousCaution | suspiciousVerifySender | suspiciousNoLinks
  | safeDefault
  | neverShareOtp | verifyOfficialApp | neverClickShortUrl
deriving DecidableEq, Repr

/-- `DetectionEngine._generate_recommendations`. -/
def generate_recommendations (classification : String)
    (triggered_rules : List String) : List RecommendationItem :=
  let base : List RecommendationItem :=
    if classification = "SCAM" then [.scamDoNotRespond, .scamDelete, .scamReport]
    else if classification = "SUSPICIOUS" then
      [.suspiciousCaution, .suspiciousVerifySender, .suspiciousNoLinks]
    else [.safeDefault]
  let r1 : List RecommendationItem :=
    if "sensitive_data_request" ∈ triggered_rules then [.neverShareOtp] else []
  let r2 : List RecommendationItem :=
    if "brand_impersonation_pakistan_financial" ∈ triggered_rules then
      [.verifyOfficialApp] else []
  let r3 : List RecommendationItem :=
    if "shortened_url" ∈ triggered_rules then [.neverClickShortUrl] else []
  base ++ r1 ++ r2 ++ r3

/-- The response dict of `DetectionEngine.analyze_message` (the ISO
timestamp and the sha256 fingerprint, presentation-only fields no claim
mentions, are not modelled). -/
structure DetectionResult where
  classification : String
  risk_score : ℚ
  ml_score : ℚ
  rule_score : ℚ
  confidence : ℚ
  explanation : List ExplanationItem
  highlighted_keywords : List Str
  triggered_rules : List String
  safety_recommendations : List RecommendationItem
  language_detected : String
  language_confidence : ℚ
deriving DecidableEq, Repr

/-- `DetectionEngine.analyze_message(message, language)`.  `ml_enabled`
models `settings.ENABLE_ML` (with a constructed `ml_detector`); `ml_prob`
is the external sklearn classifier's probability on the processed text. -/
def analyze_message (ml_enabled : Bool) (ml_prob : Str → ℚ)
    (message : Str) (language : String) : DetectionResult :=
  let lang_info := LanguageProcessor.process message language
  let ml_score : ℚ := if ml_enabled then ml_prob lang_info.processed_text else 0
  let rule_result := RuleDetector.analyze message lang_info
  let rule_score := rule_result.score
  let final_score := calculate_final_score ml_score rule_score
  let classification := classify final_score
  let confidence := calculate_confidence ml_score rule_score
  { classification := classification,
    risk_score := pyRound (final_score * 100) 2,
    ml_score := pyRound ml_score 4,
    rule_score := pyRound rule_score 4,
    confidence := pyRound confidence 4,
    explanation := generate_explanations ml_enabled ml_score rule_result lang_info,
    highlighted_keywords := rule_result.keywords,
    triggered_rules := rule_result.triggered_rules,
    safety_recommendations :=
      generate_recommendations classification rule_result.triggered_rules,
    language_detected := lang_info.language,
    language_confidence := pyRound lang_info.confidence 4 }

/-- The `POST /analyze` endpoint validation plus pipeline
(`analyze_message` endpoint in `backend/main.py`): HTTP 400 rejections are
modelled as `Except.error` with the detail string. -/
def analyze_endpoint (ml_enabled : Bool) (ml_prob : Str → ℚ)
    (message : Str) (language : String) : Except String DetectionResult :=
  if message.isEmpty || (LanguageProcessor.pyStrip message).length = 0 then
    .error "Message cannot be empty"
  else if MAX_MESSAGE_LENGTH < message.length then
    .error "Message too long"
  else
    .ok (analyze_message ml_enabled ml_prob message language)

end Engine

/-! ## Analytics (`backend/analytics/tracker.py`, class `ScamAnalytics`) -/

namespace Analytics

/-- A match attempt of one `re.sub` pattern at the current position: given
the character preceding the position (in the original text) and the
remaining text, return the consumed length and the replacement text. -/
abbrev Matcher := Option Char → Str → Option (Nat × Str)

/-- Left-to-right, non-overlapping `re.sub` scan.  `fuel` is the remaining
length (every step consumes at least one character; a 0-length match is
treated as no match — none of the source's patterns can match empty text). -/
def substAux (m : Matcher) : Nat → Option Char → Str → Str
  | 0, _, s => s
  | _ + 1, _, [] => []
  | fuel + 1, prev, c :: rest =>
    match m prev (c :: rest) with
    | some (n, repl) =>
      if n = 0 then c :: substAux m fuel (some c) rest
      else repl ++ substAux m fuel (((c :: rest).take n).getLast?) ((c :: rest).drop n)
    | none => c :: substAux m fuel (some c) rest

/-- `re.sub(pattern, repl, s)` for one of the anonymisation patterns. -/
def subst (m : Matcher) (s : Str) : Str := substAux m s.length none s

/-- `s` consists of exactly `n` characters, all digits. -/
def digitsExactly (s : Str) (n : Nat) : Bool := s.length = n && s.all Char.isDigit

/-- `r'\b\d{10,}\b'` (the "phone number" generic long-digit-run pattern):
a maximal digit run of length ≥ 10 delimited by word boundaries.  (A shorter
backtracked run would end at a digit, a word character, so the maximal run is
the only candidate.) -/
def phoneMatcher : Matcher := fun prev s =>
  let run := s.takeWhile Char.isDigit
  if !wordAt prev && decide (10 ≤ run.length) && !wordAt ((s.drop run.length).head?) then
    some (run.length, "[PHONE]".toList)
  else none

/-- `r'\b\d{5}-\d{7}-\d{1}\b'` (Pakistani CNIC format). -/
def cnicMatcher : Matcher := fun prev s =>
  if !wordAt prev
      && digitsExactly (s.take 5) 5 && ((s.drop 5).take 1 = ['-'])
      && digitsExactly ((s.drop 6).take 7) 7 && ((s.drop 13).take 1 = ['-'])
      && digitsExactly ((s.drop 14).take 1) 1
      && !wordAt ((s.drop 15).head?) then
    some (15, "[CNIC]".toList)
  else none

/-- Character class `[\w.-]` of the email pattern. -/
def isEmailChar (c : Char) : Bool := isWordChar c || c = '.' || c = '-'

/-- Backtracking split of the part after `@` of `r'[\w.-]+\.\w+'`: the
rightmost `'.'` (at index ≥ 1, so `[\w.-]+` is nonempty) followed by a
nonempty word-character run; returns (index of the dot, length of the run). -/
def lastDotSplit (chunk : Str) : Option (Nat × Nat) :=
  (List.range chunk.length).reverse.findSome? fun k =>
    if 1 ≤ k then
      match chunk.drop k with
      | '.' :: rest =>
        let y := rest.takeWhile isWordChar
        if y = [] then none else some (k, y.length)
      | _ => none
    else none

/-- `r'\b[\w.-]+@[\w.-]+\.\w+\b'` (email addresses).  The leading `\b` holds
iff the word-ness of the preceding character differs from that of the first
matched character; the trailing `\b` always holds after a maximal nonempty
`\w+` run. -/
def emailMatcher : Matcher := fun prev s =>
  let p1 := s.takeWhile isEmailChar
  if p1 = [] then none
  else if wordAt prev = wordAt p1.head? then none
  else
    match s.drop p1.length with
    | '@' :: rest2 =>
      let chunk := rest2.takeWhile isEmailChar
      match lastDotSplit chunk with
      | some ky => some (p1.length + 1 + ky.1 + 1 + ky.2, "[EMAIL]".toList)
      | none => none
    | _ => none

/-- Character class `[\s-]` of the card pattern. -/
def isSepChar (c : Char) : Bool := pyIsSpace c || c = '-'

/-- Length consumed by `[\s-]?` at the head of `s`. -/
def optSep (s : Str) : Nat :=
  match s with
  | c :: _ => if isSepChar c then 1 else 0
  | [] => 0

/-- `r'\b\d{4}[\s-]?\d{4}[\s-]?\d{4}[\s-]?\d{4}\b'` (card numbers). -/
def cardMatcher : Matcher := fun prev s =>
  if !wordAt prev && digitsExactly (s.take 4) 4 then
    let i1 := 4 + optSep (s.drop 4)
    if digitsExactly ((s.drop i1).take 4) 4 then
      let i2 := i1 + 4 + optSep (s.drop (i1 + 4))
      if digitsExactly ((s.drop i2).take 4) 4 then
        let i3 := i2 + 4 + optSep (s.drop (i2 + 4))
        if digitsExactly ((s.drop i3).take 4) 4 && !wordAt ((s.drop (i3 + 4)).head?) then
          some (i3 + 4, "[CARD]".toList)
        else none
      else none
    else none
  else none

/-- `r'https?://[^\s]+'` (URLs; no word boundaries). -/
def urlMatcher : Matcher := fun _ s =>
  let pfx : Option Nat :=
    if "https://".toList.isPrefixOf s then some 8
    else if "http://".toList.isPrefixOf s then some 7
    else none
  match pfx with
  | some n =>
    let tail := (s.drop n).takeWhile (fun c => !pyIsSpace c)
    if tail = [] then none else some (n + tail.length, "[URL]".toList)
  | none => none

/-- `ScamAnalytics._anonymize_message`: the five substitutions in source
order — phone runs first, then CNIC, email, card, URL. -/
def anonymize_message (message : Str) : Str :=
  let m1 := subst phoneMatcher message
  let m2 := subst cnicMatcher m1
  let m3 := subst emailMatcher m2
  let m4 := subst cardMatcher m3
  subst urlMatcher m4

/-- The substitution order the claim asserts: the card pattern is tested
before the generic long-digit-run (phone) pattern (to be compared with the
source order above). -/
def claimCardFirstAnonymize (message : Str) : Str :=
  let m1 := subst cardMatcher message
  let m2 := subst phoneMatcher m1
  let m3 := subst cnicMatcher m2
  let m4 := subst emailMatcher m3
  subst urlMatcher m4

/-- A record of the analytics detection log.  Timestamps are whole hours
relative to an arbitrary epoch (the queries under verification only inspect
window membership).  Fields read only by the statistics no claim mentions
(risk score, ML probability, message hash/length, URL flag, language) are
not modelled. -/
structure DetectionRecord where
  timestamp : ℤ
  classification : String
  triggered_rules : List String
deriving DecidableEq, Repr

/-- `ScamAnalytics.log_detection`: append the new record, then
`if len(self.detections) > 10000: self.detections = self.detections[-10000:]`. -/
def log_detection (detections : List DetectionRecord) (record : DetectionRecord) :
    List DetectionRecord :=
  let detections := detections ++ [record]
  if 10000 < detections.length then detections.drop (detections.length - 10000)
  else detections

/-- Records of the trailing window: `timestamp > now - hours`
(`get_statistics`). -/
def recentRecords (log : List DetectionRecord) (now : ℤ) (hours : Nat) :
    List DetectionRecord :=
  log.filter (fun d => now - (hours : ℤ) < d.timestamp)

/-- `_get_top_patterns`: every triggered rule of every SCAM or SUSPICIOUS
record, in record order. -/
def patternOccurrences (recs : List DetectionRecord) : List String :=
  (recs.map (fun d =>
    if d.classification = "SCAM" ∨ d.classification = "SUSPICIOUS" then
      d.triggered_rules
    else [])).flatten

/-- The keys of a Python `Counter` built from `l`, in first-encounter
(insertion) order. -/
def keysInOrder (l : List String) : List String :=
  l.foldl (fun acc x => if x ∈ acc then acc else acc ++ [x]) []

/-- The `Counter` items: each distinct element with its multiplicity, in
insertion order. -/
def counterItems (l : List String) : List (String × Nat) :=
  (keysInOrder l).map (fun k => (k, l.count k))

/-- Stable insertion of `a` into a descending-by-key list: `a` is placed
before the first element with a strictly smaller key (so after all earlier
elements of equal key). -/
def insertDescBy {α β : Type} [LinearOrder β] (key : α → β) (a : α) :
    List α → List α
  | [] => [a]
  | b :: l => if key b < key a then a :: b :: l else b :: insertDescBy key a l

/-- Python's stable `sorted(…, key=…, reverse=True)`. -/
def stableSortDescBy {α β : Type} [LinearOrder β] (key : α → β) (l : List α) :
    List α :=
  l.foldl (fun acc a => insertDescBy key a acc) []

/-- `Counter.most_common(n)`: by count descending, ties in insertion order. -/
def most_common (n : Nat) (l : List String) : List (String × Nat) :=
  (stableSortDescBy (fun kc => kc.2) (counterItems l)).take n

/-- The `top_scam_patterns` entry of `get_statistics(hours)` as consumed by
`get_emerging_threats` (pattern and count; when the window is empty,
`_get_empty_stats` has no such entry, and the caller's `.get(…, [])`
produces `[]`). -/
def top_scam_patterns (log : List DetectionRecord) (now : ℤ) (hours : Nat) :
    List (String × Nat) :=
  let recent := recentRecords log now hours
  if recent = [] then [] else most_common 10 (patternOccurrences recent)

/-- The fixed table of `_get_pattern_description`. -/
def DESCRIPTIONS : List (String × String) :=
  [("brand_impersonation_pakistan_financial", "Easypaisa/JazzCash impersonation"),
   ("brand_impersonation_global_financial", "PayPal/Stripe impersonation"),
   ("brand_impersonation_global_tech", "WhatsApp/Google impersonation"),
   ("brand_impersonation_government", "FBR/NADRA impersonation"),
   ("urgency_language", "Urgent action required tactics"),
   ("suspicious_actions", "Multiple action requests (click, verify)"),
   ("sensitive_data_request", "Requests for OTP, PIN, passwords"),
   ("threat_language", "Account suspension threats"),
   ("financial_manipulation", "Prize/reward promises"),
   ("shortened_url", "Shortened URL links (bit.ly, etc.)"),
   ("suspicious_domain_extension", "Suspicious domains (.xyz, .tk)"),
   ("suspicious_domain_pattern", "Phishing domain patterns")]

/-- `'_' → ' '` of the default description transform. -/
def underscoreToSpace (s : Str) : Str := s.map (fun c => if c = '_' then ' ' else c)

/-- Python `str.title()` (ASCII): uppercase an alphabetic character starting
an alphabetic run, lowercase the rest of the run. -/
def pyTitleAux : Bool → Str → Str
  | _, [] => []
  | prevAlpha, c :: rest =>
    if c.isAlpha then
      (if prevAlpha then c.toLower else c.toUpper) :: pyTitleAux true rest
    else c :: pyTitleAux false rest

/-- `_get_pattern_description`. -/
def get_pattern_description (pattern : String) : String :=
  match DESCRIPTIONS.lookup pattern with
  | some d => d
  | none => (pyTitleAux false (underscoreToSpace pattern.toList)).asString

/-- An entry of the `get_emerging_threats` result. -/
structure EmergingThreat where
  pattern : String
  description : String
  recent_count : Nat
  previous_count : Nat
  change_percentage : ℚ
deriving DecidableEq, Repr

/-- Loop body of `get_emerging_threats`: one entry of the recent top-pattern
list becomes an emerging threat when it is absent from the older top-pattern
list (`dict.get(pattern, 0)` = 0) or its count grew by more than 50 %
(`recent_count > older_count * 1.5`); `change_percentage =
round((recent − older) / max(older, 1) * 100, 2)`. -/
def emergingEntry (older_patterns : List (String × Nat)) (pc : String × Nat) :
    Option EmergingThreat :=
  let older_count := (older_patterns.lookup pc.1).getD 0
  if older_count = 0 ∨ (older_count : ℚ) * 1.5 < (pc.2 : ℚ) then
    some { pattern := pc.1,
           description := get_pattern_description pc.1,
           recent_count := pc.2,
           previous_count := older_count,
           change_percentage :=
             Engine.pyRound (((pc.2 : ℚ) - (older_count : ℚ))
                / ((max older_count 1 : Nat) : ℚ) * 100) 2 }
  else none

/-- `ScamAnalytics.get_emerging_threats`: compare `statistics(24)`'s top
patterns against `statistics(48)`'s; keep a pattern when it is absent from
the older top list or grew by more than 50 %; sort by change percentage
descending (stable) and return the first 5. -/
def get_emerging_threats (log : List DetectionRecord) (now : ℤ) :
    List EmergingThreat :=
  let recent_patterns := top_scam_patterns log now 24
  let older_patterns := top_scam_patterns log now 48
  let emerging := recent_patterns.filterMap (emergingEntry older_patterns)
  (stableSortDescBy (fun e => e.change_percentage) emerging).take 5

/-- A concrete one-record log: a SCAM detection at `now` (hour 0) whose
pattern therefore occurs in the 0–24h window and not in the 24–48h band. -/
def singleRecordLog : List DetectionRecord := [⟨0, "SCAM", ["urgency_language"]⟩]

/-- A concrete log exercising the top-10 cutoff of `most_common`: ten
patterns detected twice each 30 hours ago fill the older window's top-10
list, and one new pattern (p0) appears only in the last 24 hours. -/
def elevenPatternLog : List DetectionRecord :=
  (["p1", "p2", "p3", "p4", "p5", "p6", "p7", "p8", "p9", "p10"].map
      (fun s => ⟨-30, "SCAM", [s]⟩))
    ++ (["p1", "p2", "p3", "p4", "p5", "p6", "p7", "p8", "p9", "p10"].map
      (fun s => ⟨-30, "SCAM", [s]⟩))
    ++ [⟨0, "SCAM", ["p0"]⟩]

end Analytics

/-! # Theorems -/

/-! ## C1: the score combiner -/

/--
C1.  For every score pair (ml_score, rule_score) with both in [0,1], the
score combiner returns `final_score = min(ml_weight*ml_score +
rule_weight*rule_score, 1.0)`, and this final score lies in [0,1].
-/
theorem final_score_is_clamped_weighted_sum (ml_score rule_score : ℚ)
    (h0 : 0 ≤ ml_score) (h1 : ml_score ≤ 1) (h2 : 0 ≤ rule_score) (h3 : rule_score ≤ 1) :
    Engine.calculate_final_score ml_score rule_score
        = min (Engine.ML_WEIGHT * ml_score + Engine.RULE_WEIGHT * rule_score) 1
      ∧ 0 ≤ Engine.calculate_final_score ml_score rule_score
      ∧ Engine.calculate_final_score ml_score rule_score ≤ 1 := by
  unfold Engine.calculate_final_score Engine.ML_WEIGHT Engine.RULE_WEIGHT
  refine ⟨by ring_nf, ?_, min_le_right _ _⟩
  have hml : (0 : ℚ) ≤ ml_score * 0.65 := by positivity
  have hrl : (0 : ℚ) ≤ rule_score * 0.35 := by positivity
  exact le_min (by linarith) (by norm_num)

/-- Witness for `final_score_is_clamped_weighted_sum` at (0.5, 0.5). -/
theorem final_score_is_clamped_weighted_sum_witness :
    Engine.calculate_final_score 0.5 0.5
        = min (Engine.ML_WEIGHT * 0.5 + Engine.RULE_WEIGHT * 0.5) 1
      ∧ 0 ≤ Engine.calculate_final_score 0.5 0.5
      ∧ Engine.calculate_final_score 0.5 0.5 ≤ 1 :=
  final_score_is_clamped_weighted_sum 0.5 0.5 (by norm_num) (by norm_num)
    (by norm_num) (by norm_num)

/-! ## C5: language-detection confidence -/

/--
C5 (code bug).  The claim (and the spec's data model) require the reported
language confidence to lie in [0,1], but the transliterated (Roman-Urdu)
branch reports `matches / word_count` where `matches` counts distinct
dictionary words contained as substrings — which can exceed the word count.
On the two-word message "apka hai", three dictionary words match
("apka", "hai", and "ka" inside "apka"), so the returned confidence is
3/2 > 1.
-/
theorem language_confidence_exceeds_one_on_roman_urdu :
    (LanguageProcessor.process ("apka hai".toList) "auto").confidence = 3 / 2
      ∧ ¬ ((LanguageProcessor.process ("apka hai".toList) "auto").confidence ≤ 1) := by
  have hu : ¬ 5 < LanguageProcessor.urduCharCount ("apka hai".toList) := by decide
  have hr : LanguageProcessor.romanCount ("apka hai".toList) = 3 := by decide
  have hs : (LanguageProcessor.pySplit ("apka hai".toList)).length = 2 := by decide
  have hpos : 2 ≤ LanguageProcessor.romanCount ("apka hai".toList) := by decide
  have hconf : (LanguageProcessor.process ("apka hai".toList) "auto").confidence
      = ((LanguageProcessor.romanCount ("apka hai".toList) : ℚ)
          / ((max (LanguageProcessor.pySplit ("apka hai".toList)).length 1 : Nat) : ℚ)) := by
    show (LanguageProcessor.detect_language ("apka hai".toList)).2 = _
    rw [LanguageProcessor.detect_language, if_neg hu, if_pos hpos]
  rw [hconf, hr, hs]
  norm_num

/-! ## C9: bounded analytics log -/

/-- `log_detection` always equals "append, then keep the last 10000". -/
theorem log_detection_eq_drop (acc : List Analytics.DetectionRecord)
    (r : Analytics.DetectionRecord) :
    Analytics.log_detection acc r
      = (acc ++ [r]).drop ((acc ++ [r]).length - 10000) := by
  show (if 10000 < (acc ++ [r]).length then
          (acc ++ [r]).drop ((acc ++ [r]).length - 10000)
        else acc ++ [r]) = _
  split
  · rfl
  · next h => rw [Nat.sub_eq_zero_of_le (by omega), List.drop_zero]

/-- Length after one append: capped at 10000. -/
theorem length_log_detection (acc : List Analytics.DetectionRecord)
    (r : Analytics.DetectionRecord) :
    (Analytics.log_detection acc r).length = min (acc.length + 1) 10000 := by
  rw [log_detection_eq_drop, List.length_drop]
  simp only [List.length_append, List.length_cons, List.length_nil]
  omega

set_option maxRecDepth 4000 in
/-- Replaying any record sequence through `log_detection` keeps exactly the
most recent 10000 records. -/
theorem foldl_log_detection (rs : List Analytics.DetectionRecord) :
    ∀ acc : List Analytics.DetectionRecord, acc.length ≤ 10000 →
      List.foldl Analytics.log_detection acc rs
        = (acc ++ rs).drop ((acc ++ rs).length - 10000) := by
  induction rs with
  | nil =>
    intro acc h
    simp only [List.foldl_nil, List.append_nil]
    rw [Nat.sub_eq_zero_of_le h, List.drop_zero]
  | cons r tl ih =>
    intro acc h
    rw [List.foldl_cons, ih (Analytics.log_detection acc r)
        (by rw [length_log_detection]; omega)]
    rw [log_detection_eq_drop]
    have hk : (acc ++ [r]).length - 10000 ≤ (acc ++ [r]).length := Nat.sub_le _ _
    have hsplit : ((acc ++ [r]) ++ tl).drop ((acc ++ [r]).length - 10000)
        = (acc ++ [r]).drop ((acc ++ [r]).length - 10000) ++ tl := by
      rw [List.drop_append_eq_append_drop, Nat.sub_eq_zero_of_le hk, List.drop_zero]
    rw [← hsplit, List.drop_drop]
    have hassoc : (acc ++ [r]) ++ tl = acc ++ r :: tl := by
      rw [List.append_assoc, List.singleton_append]
    rw [hassoc]
    have key : ∀ n m : ℕ, n = m →
        (acc ++ r :: tl).drop n = (acc ++ r :: tl).drop m := by
      intro n m hnm
      rw [hnm]
    apply key
    simp only [List.length_drop, List.length_append, List.length_cons, List.length_nil]
    omega

/--
C9.  The analytics detection log is bounded at capacity 10000 with newest
records last: after appending 10001 records to an empty log one at a time,
the log is exactly the last 10000 of them — record #1 has been evicted,
record #10001 is still the last entry.
-/
theorem detection_log_truncation (rs : List Analytics.DetectionRecord)
    (h : rs.length = 10001) :
    List.foldl Analytics.log_detection [] rs = rs.drop 1
      ∧ (List.foldl Analytics.log_detection [] rs).length = 10000
      ∧ (List.foldl Analytics.log_detection [] rs).getLast? = rs.getLast? := by
  have hfold := foldl_log_detection rs [] (by simp)
  simp only [List.nil_append] at hfold
  have hdrop : rs.drop (rs.length - 10000) = rs.drop 1 := by rw [h]
  refine ⟨hfold.trans hdrop, ?_, ?_⟩
  · rw [hfold.trans hdrop, List.length_drop, h]
  · rw [hfold.trans hdrop]
    rcases rs with _ | ⟨a, tl⟩
    · simp at h
    · have htl : tl ≠ [] := by
        intro hh
        rw [hh] at h
        simp at h
      rw [List.drop_one, List.tail_cons,
        show a :: tl = [a] ++ tl from rfl, List.getLast?_append]
      cases tl with
      | nil => exact absurd rfl htl
      | cons b bs => rw [List.getLast?_cons]; rfl

/-- Witness for `detection_log_truncation` on a concrete 10001-record
sequence. -/
theorem detection_log_truncation_witness :
    List.foldl Analytics.log_detection []
        (List.replicate 10001 (⟨0, "SAFE", []⟩ : Analytics.DetectionRecord))
      = (List.replicate 10001 (⟨0, "SAFE", []⟩ : Analytics.DetectionRecord)).drop 1
    ∧ (List.foldl Analytics.log_detection []
        (List.replicate 10001 (⟨0, "SAFE", []⟩ : Analytics.DetectionRecord))).length = 10000
    ∧ (List.foldl Analytics.log_detection []
        (List.replicate 10001 (⟨0, "SAFE", []⟩ : Analytics.DetectionRecord))).getLast?
      = (List.replicate 10001 (⟨0, "SAFE", []⟩ : Analytics.DetectionRecord)).getLast? :=
  detection_log_truncation _ (by rw [List.length_replicate])

/-! ## C10: rule analysis is invariant under language metadata and case -/

/-- The rule detector never reads its `lang_info` argument. -/
theorem ruleAnalyze_lang_irrelevant (m : Str) (li li' : RuleDetector.LanguageInfo) :
    RuleDetector.analyze m li = RuleDetector.analyze m li' := rfl

/--
C10.  Rule-based analysis is invariant under language metadata and letter
case: (a) the `lang_info` parameter never influences the result; (b) two
messages with the same lowercasing produce identical results; (c) in the
pipeline the rule engine receives the raw message, so the language hint
(and with it normalization and Roman-Urdu translation) never changes the
rule score, triggered rules, or highlighted keywords of the result.
-/
theorem rule_analysis_invariance :
    (∀ (m : Str) (li li' : RuleDetector.LanguageInfo),
        RuleDetector.analyze m li = RuleDetector.analyze m li')
      ∧ (∀ (m₁ m₂ : Str) (li : RuleDetector.LanguageInfo),
          lowerStr m₁ = lowerStr m₂ →
            RuleDetector.analyze m₁ li = RuleDetector.analyze m₂ li)
      ∧ (∀ (ml_enabled : Bool) (ml_prob : Str → ℚ) (m : Str) (h₁ h₂ : String),
          (Engine.analyze_message ml_enabled ml_prob m h₁).rule_score
              = (Engine.analyze_message ml_enabled ml_prob m h₂).rule_score
            ∧ (Engine.analyze_message ml_enabled ml_prob m h₁).triggered_rules
              = (Engine.analyze_message ml_enabled ml_prob m h₂).triggered_rules
            ∧ (Engine.analyze_message ml_enabled ml_prob m h₁).highlighted_keywords
              = (Engine.analyze_message ml_enabled ml_prob m h₂).highlighted_keywords) := by
  refine ⟨fun m li li' => rfl, ?_, fun ml f m h₁ h₂ => ⟨rfl, rfl, rfl⟩⟩
  intro m₁ m₂ li h
  unfold RuleDetector.analyze
  rw [h]

/-- Witness for `rule_analysis_invariance`: the case-invariance part at a
concrete pair of messages differing only in letter case. -/
theorem rule_analysis_invariance_witness :
    RuleDetector.analyze ("EasyPaisa OTP Now".toList) RuleDetector.someLangInfo
      = RuleDetector.analyze ("easypaisa otp now".toList) RuleDetector.someLangInfo :=
  rule_analysis_invariance.2.1 ("EasyPaisa OTP Now".toList) ("easypaisa otp now".toList)
    RuleDetector.someLangInfo (by decide)

/-! ## C8: endpoint validation -/

/--
C8 (counterexample).  The claim says validation fails exactly when the
message is empty or exceeds the maximum length; but the endpoint also
rejects a whitespace-only message (here a single space), which is neither
empty nor over-long.
-/
theorem whitespace_message_rejected :
    Engine.analyze_endpoint false (fun _ => 0) (" ".toList) "auto"
        = .error "Message cannot be empty"
      ∧ (" ".toList : Str) ≠ []
      ∧ (" ".toList : Str).length ≤ Engine.MAX_MESSAGE_LENGTH := by
  refine ⟨?_, by decide, by decide⟩
  rfl

/--
C8 (amended).  `analyze` fails with a validation error exactly when the
message is empty *after stripping whitespace* (empty or whitespace-only) or
exceeds the configured maximum length; for every other message it returns a
`DetectionResult` — for any ML configuration, in particular with the ML
classifier disabled.
-/
theorem analyze_validation_characterisation (ml_enabled : Bool) (ml_prob : Str → ℚ)
    (message : Str) (language : String) :
    (∃ r, Engine.analyze_endpoint ml_enabled ml_prob message language = .ok r)
      ↔ (LanguageProcessor.pyStrip message ≠ []
          ∧ message.length ≤ Engine.MAX_MESSAGE_LENGTH) := by
  unfold Engine.analyze_endpoint
  split
  · next h =>
    simp only [Bool.or_eq_true, List.isEmpty_iff, List.length_eq_zero,
      decide_eq_true_eq] at h
    constructor
    · rintro ⟨r, hr⟩
      cases hr
    · rintro ⟨hne, -⟩
      rcases h with h | h
      · exact absurd (by rw [h]; rfl) hne
      · exact absurd h hne
  · next h =>
    split
    · next hlen =>
      constructor
      · rintro ⟨r, hr⟩
        cases hr
      · rintro ⟨-, hle⟩
        omega
    · next hlen =>
      refine ⟨fun _ => ⟨?_, by omega⟩, fun _ => ⟨_, rfl⟩⟩
      simp only [Bool.or_eq_true, List.isEmpty_iff, List.length_eq_zero,
        decide_eq_true_eq] at h
      push_neg at h
      exact h.2

/-- Witness for `analyze_validation_characterisation`: a concrete well-formed
message is accepted. -/
theorem analyze_validation_characterisation_witness :
    ∃ r, Engine.analyze_endpoint false (fun _ => 0) ("hello there".toList) "auto" = .ok r :=
  (analyze_validation_characterisation false (fun _ => 0) ("hello there".toList)
      "auto").mpr ⟨by decide, by decide⟩

/-! ## Pattern-matching characterisation -/


theorem ite_some_none_isSome {α : Type} (c : Prop) [Decidable c] (a : α) :
    (if c then some a else none).isSome ↔ c := by
  split <;> simp [*]

theorem isPrefixOf_iff_exists (l₁ l₂ : Str) :
    l₁.isPrefixOf l₂ = true ↔ ∃ post, l₂ = l₁ ++ post := by
  rw [List.isPrefixOf_iff_prefix, List.prefix_iff_eq_append]
  constructor
  · intro h
    exact ⟨l₂.drop l₁.length, h.symm⟩
  · rintro ⟨post, rfl⟩
    rw [List.drop_left]

theorem matchAt_bounded_isSome_iff (alts : List Str) (t : Str) (i : Nat) :
    (matchAt ⟨alts, true⟩ t i).isSome ↔
      ∃ w ∈ alts, w.isPrefixOf (t.drop i) = true
        ∧ wordAt ((t.take i).getLast?) = false
        ∧ wordAt ((t.drop (i + w.length)).head?) = false := by
  unfold matchAt
  rw [List.findSome?_isSome_iff]
  constructor
  · rintro ⟨w, hw, hs⟩
    rw [ite_some_none_isSome] at hs
    simp only [Bool.and_eq_true, Bool.not_eq_true', Bool.or_eq_true] at hs
    refine ⟨w, hw, hs.1, ?_⟩
    rcases hs.2 with h | h
    · cases h
    · simpa [Bool.not_eq_true'] using h
  · rintro ⟨w, hw, h1, h2, h3⟩
    refine ⟨w, hw, ?_⟩
    rw [ite_some_none_isSome]
    simp only [Bool.not_true, Bool.false_or, Bool.and_eq_true, Bool.not_eq_true']
    exact ⟨h1, h2, h3⟩

theorem matchAt_unbounded_isSome_iff (alts : List Str) (t : Str) (i : Nat) :
    (matchAt ⟨alts, false⟩ t i).isSome ↔
      ∃ w ∈ alts, w.isPrefixOf (t.drop i) = true := by
  unfold matchAt
  rw [List.findSome?_isSome_iff]
  constructor
  · rintro ⟨w, hw, hs⟩
    rw [ite_some_none_isSome] at hs
    simp only [Bool.and_eq_true] at hs
    exact ⟨w, hw, hs.1⟩
  · rintro ⟨w, hw, h1⟩
    refine ⟨w, hw, ?_⟩
    rw [ite_some_none_isSome]
    simp [h1]

theorem search_iff_exists_matchAt (p : Pat) (t : Str) :
    search p t = true ↔ ∃ i, i ≤ t.length ∧ (matchAt p t i).isSome := by
  unfold search allMatches
  rw [Bool.not_eq_true', List.isEmpty_eq_false_iff_exists_mem]
  constructor
  · rintro ⟨w, hw⟩
    rcases List.mem_filterMap.mp hw with ⟨i, hi, hmi⟩
    exact ⟨i, by simpa [Nat.lt_succ_iff] using List.mem_range.mp hi,
      by rw [hmi]; rfl⟩
  · rintro ⟨i, hi, hsome⟩
    rcases Option.isSome_iff_exists.mp hsome with ⟨w, hw⟩
    exact ⟨w, List.mem_filterMap.mpr ⟨i, List.mem_range.mpr (Nat.lt_succ_of_le hi), hw⟩⟩

theorem wholeWord_decomp_iff (w t : Str) :
    (∃ i, i ≤ t.length ∧ w.isPrefixOf (t.drop i) = true
        ∧ wordAt ((t.take i).getLast?) = false
        ∧ wordAt ((t.drop (i + w.length)).head?) = false)
      ↔ WholeWordOccurs w t := by
  constructor
  · rintro ⟨i, hi, hpre, hb1, hb2⟩
    rcases (isPrefixOf_iff_exists _ _).mp hpre with ⟨post, hpost⟩
    refine ⟨t.take i, post, ?_, ?_, ?_⟩
    · rw [List.append_assoc, ← hpost, List.take_append_drop]
    · intro c hc
      rw [hc] at hb1
      simpa [wordAt] using hb1
    · intro c hc
      have hdd : t.drop (i + w.length) = post := by
        rw [← List.drop_drop, hpost, List.drop_left]
      rw [hdd] at hb2
      rw [hc] at hb2
      simpa [wordAt] using hb2
  · rintro ⟨pre, post, rfl, h1, h2⟩
    refine ⟨pre.length, ?_, ?_, ?_, ?_⟩
    · simp only [List.length_append]
      omega
    · rw [List.append_assoc, List.drop_left]
      rw [isPrefixOf_iff_exists]
      exact ⟨post, rfl⟩
    · rw [List.append_assoc, List.take_left]
      cases hpl : pre.getLast? with
      | none => rfl
      | some c => simpa [wordAt] using h1 c hpl
    · rw [List.append_assoc, ← List.drop_drop, List.drop_left, List.drop_left]
      cases hph : post.head? with
      | none => rfl
      | some c => simpa [wordAt] using h2 c hph

theorem substr_decomp_iff (w t : Str) :
    (∃ i, i ≤ t.length ∧ w.isPrefixOf (t.drop i) = true) ↔ SubstrOccurs w t := by
  constructor
  · rintro ⟨i, hi, hpre⟩
    rcases (isPrefixOf_iff_exists _ _).mp hpre with ⟨post, hpost⟩
    exact ⟨t.take i, post, by rw [List.append_assoc, ← hpost, List.take_append_drop]⟩
  · rintro ⟨pre, post, rfl⟩
    refine ⟨pre.length, ?_, ?_⟩
    · simp only [List.length_append]
      omega
    · rw [List.append_assoc, List.drop_left, isPrefixOf_iff_exists]
      exact ⟨post, rfl⟩

theorem search_bounded_iff (alts : List Str) (t : Str) :
    search ⟨alts, true⟩ t = true ↔ ∃ w ∈ alts, WholeWordOccurs w t := by
  rw [search_iff_exists_matchAt]
  constructor
  · rintro ⟨i, hi, hsome⟩
    rcases (matchAt_bounded_isSome_iff alts t i).mp hsome with ⟨w, hw, h1, h2, h3⟩
    exact ⟨w, hw, (wholeWord_decomp_iff w t).mp ⟨i, hi, h1, h2, h3⟩⟩
  · rintro ⟨w, hw, hww⟩
    rcases (wholeWord_decomp_iff w t).mpr hww with ⟨i, hi, h1, h2, h3⟩
    exact ⟨i, hi, (matchAt_bounded_isSome_iff alts t i).mpr ⟨w, hw, h1, h2, h3⟩⟩

theorem search_unbounded_iff (alts : List Str) (t : Str) :
    search ⟨alts, false⟩ t = true ↔ ∃ w ∈ alts, SubstrOccurs w t := by
  rw [search_iff_exists_matchAt]
  constructor
  · rintro ⟨i, hi, hsome⟩
    rcases (matchAt_unbounded_isSome_iff alts t i).mp hsome with ⟨w, hw, h1⟩
    exact ⟨w, hw, (substr_decomp_iff w t).mp ⟨i, hi, h1⟩⟩
  · rintro ⟨w, hw, hsub⟩
    rcases (substr_decomp_iff w t).mpr hsub with ⟨i, hi, h1⟩
    exact ⟨i, hi, (matchAt_unbounded_isSome_iff alts t i).mpr ⟨w, hw, h1⟩⟩


/-! ## Rule-engine loop characterisation -/

namespace RuleDetector


theorem brandFold_rules (t : Str) (l : List (String × Pat)) :
    ∀ acc : BrandAcc,
      (l.foldl (brandStep t) acc).rules
        = acc.rules ++ (l.filter (fun cp => search cp.2 t)).map
            (fun cp => "brand_impersonation_" ++ cp.1) := by
  induction l with
  | nil =>
    intro acc
    simp
  | cons cp l ih =>
    intro acc
    rw [List.foldl_cons, ih]
    by_cases hcp : search cp.2 t
    · rw [@List.filter_cons_of_pos _ (fun x => search x.2 t) cp l hcp, List.map_cons]
      rw [brandStep, if_pos hcp]
      simp
    · rw [@List.filter_cons_of_neg _ (fun x => search x.2 t) cp l hcp]
      rw [brandStep, if_neg hcp]

theorem brandFold_kws (t : Str) (l : List (String × Pat)) :
    ∀ acc : BrandAcc,
      (l.foldl (brandStep t) acc).kws
        = acc.kws ++ (l.filter (fun cp => search cp.2 t)).filterMap
            (fun cp => firstGroup cp.2 t) := by
  induction l with
  | nil =>
    intro acc
    simp
  | cons cp l ih =>
    intro acc
    rw [List.foldl_cons, ih]
    by_cases hcp : search cp.2 t
    · rw [@List.filter_cons_of_pos _ (fun x => search x.2 t) cp l hcp, List.filterMap_cons]
      rw [brandStep, if_pos hcp]
      cases hfg : firstGroup cp.2 t with
      | none => simp [Option.toList, hfg]
      | some g => simp [Option.toList, hfg]
    · rw [@List.filter_cons_of_neg _ (fun x => search x.2 t) cp l hcp]
      rw [brandStep, if_neg hcp]

theorem brandFold_score (t : Str) (l : List (String × Pat)) :
    ∀ acc : BrandAcc,
      (l.foldl (brandStep t) acc).score
        = acc.score + (0.15 : ℚ) * (l.countP (fun cp => search cp.2 t) : ℚ) := by
  induction l with
  | nil =>
    intro acc
    simp
  | cons cp l ih =>
    intro acc
    rw [List.foldl_cons, ih]
    by_cases hcp : search cp.2 t
    · rw [List.countP_cons_of_pos (fun x => search x.2 t) l hcp]
      rw [brandStep, if_pos hcp]
      push_cast
      ring
    · rw [List.countP_cons_of_neg (fun x => search x.2 t) l hcp]
      rw [brandStep, if_neg hcp]

theorem analyze_score_spec (m : Str) (li : LanguageInfo) :
    (analyze m li).score
      = min ((0.15 : ℚ) * (brandMatchCount (lowerStr m) : ℚ)
          + urgencyScoreQ (lowerStr m) + sensitiveScoreQ (lowerStr m)
          + urlScoreQ (lowerStr m)) 1 := by
  unfold analyze
  show min _ 1 = _
  congr 1
  rcases hs : sensitive_hit (lowerStr m) with _ | g <;>
    by_cases hl : search URL_PATTERN (lowerStr m) <;>
    by_cases hu : 0 < urgency_count (lowerStr m) <;>
      simp [hs, hl, hu, brandFold_score, brandMatchCount, urgencyScoreQ,
        sensitiveScoreQ, urlScoreQ] <;>
      ring

theorem analyze_rules_spec (m : Str) (li : LanguageInfo) :
    (analyze m li).triggered_rules
      = (brandRulesL (lowerStr m) ++ urgencyRulesL (lowerStr m)
          ++ sensitiveRulesL (lowerStr m) ++ urlRulesL (lowerStr m)).dedup := by
  unfold analyze
  show List.dedup _ = _
  congr 1
  rcases hs : sensitive_hit (lowerStr m) with _ | g <;>
    by_cases hl : search URL_PATTERN (lowerStr m) <;>
    by_cases hu : 0 < urgency_count (lowerStr m) <;>
      simp [hs, hl, hu, brandFold_rules, brandRulesL, urgencyRulesL,
        sensitiveRulesL, urlRulesL]

theorem analyze_kws_spec (m : Str) (li : LanguageInfo) :
    (analyze m li).keywords
      = (brandKwsL (lowerStr m) ++ urgency_matches (lowerStr m)
          ++ sensitiveKwsL (lowerStr m) ++ urlKwsL (lowerStr m)).dedup := by
  unfold analyze
  show List.dedup _ = _
  congr 1
  rcases hs : sensitive_hit (lowerStr m) with _ | g <;>
    by_cases hl : search URL_PATTERN (lowerStr m) <;>
    by_cases hu : 0 < urgency_count (lowerStr m) <;>
      simp [hs, hl, hu, brandFold_kws, brandKwsL, sensitiveKwsL, urlKwsL]

end RuleDetector

/-! ## C2: the example scam message -/


open RuleDetector in
/-- The concrete rule analysis of the C2/C3 example messages, factored out. -/
theorem example_message_rule_score :
    (RuleDetector.analyze
        ("urgent your easypaisa account will be suspended verify otp now".toList)
        RuleDetector.someLangInfo).score = 0.6 := by
  have h1 : RuleDetector.brandMatchCount
      (lowerStr ("urgent your easypaisa account will be suspended verify otp now".toList)) = 1 := by
    decide
  have h2 : RuleDetector.urgency_count
      (lowerStr ("urgent your easypaisa account will be suspended verify otp now".toList)) = 2 := by
    decide
  have h3 : (RuleDetector.sensitive_hit
      (lowerStr ("urgent your easypaisa account will be suspended verify otp now".toList))).isSome
        = true := by
    decide
  have h4 : search RuleDetector.URL_PATTERN
      (lowerStr ("urgent your easypaisa account will be suspended verify otp now".toList)) = false := by
    decide
  rw [RuleDetector.analyze_score_spec, RuleDetector.urgencyScoreQ,
    RuleDetector.sensitiveScoreQ, RuleDetector.urlScoreQ, h1, h2, h3, h4]
  norm_num [min_def]

/--
C2 (counterexample).  On the message "urgent your easypaisa account will be
suspended verify otp now" the rule engine's score is 0.6 (brand 0.15 +
urgency min(2·0.1, 0.25) + sensitive 0.25), not ≥ 0.65 as claimed.
-/
theorem example_message_rule_score_below_claim :
    (RuleDetector.analyze
        ("urgent your easypaisa account will be suspended verify otp now".toList)
        RuleDetector.someLangInfo).score = 0.6
      ∧ ¬ (0.65 ≤ (RuleDetector.analyze
            ("urgent your easypaisa account will be suspended verify otp now".toList)
            RuleDetector.someLangInfo).score) := by
  refine ⟨example_message_rule_score, ?_⟩
  rw [example_message_rule_score]
  norm_num

/--
C2 (amended).  On the example message the triggered rules include the
Pakistan-financial brand rule, the urgency rule and the sensitive-data rule;
the rule score is exactly 0.6 (so ≥ 0.6, not ≥ 0.65); and under the default
thresholds (0.45/0.75) and weights (0.65 ML / 0.35 rule) the pipeline
classifies the message as SCAM whenever the ML score is at least 54/65
(≈ 0.831, "ML also scores high").
-/
theorem example_message_classified_scam (ml_score : ℚ) (hml : 54 / 65 ≤ ml_score) :
    "brand_impersonation_pakistan_financial"
        ∈ (RuleDetector.analyze
            ("urgent your easypaisa account will be suspended verify otp now".toList)
            RuleDetector.someLangInfo).triggered_rules
      ∧ "urgency_language"
        ∈ (RuleDetector.analyze
            ("urgent your easypaisa account will be suspended verify otp now".toList)
            RuleDetector.someLangInfo).triggered_rules
      ∧ "sensitive_data_request"
        ∈ (RuleDetector.analyze
            ("urgent your easypaisa account will be suspended verify otp now".toList)
            RuleDetector.someLangInfo).triggered_rules
      ∧ (RuleDetector.analyze
            ("urgent your easypaisa account will be suspended verify otp now".toList)
            RuleDetector.someLangInfo).score = 0.6
      ∧ (Engine.analyze_message true (fun _ => ml_score)
            ("urgent your easypaisa account will be suspended verify otp now".toList)
            "auto").classification = "SCAM" := by
  refine ⟨by decide, by decide, by decide, example_message_rule_score, ?_⟩
  show Engine.classify
      (Engine.calculate_final_score ml_score
        (RuleDetector.analyze
          ("urgent your easypaisa account will be suspended verify otp now".toList)
          (LanguageProcessor.process
            ("urgent your easypaisa account will be suspended verify otp now".toList)
            "auto")).score) = "SCAM"
  rw [ruleAnalyze_lang_irrelevant _ _ RuleDetector.someLangInfo, example_message_rule_score]
  unfold Engine.classify Engine.calculate_final_score Engine.ML_WEIGHT
    Engine.RULE_WEIGHT Engine.SCAM_THRESHOLD
  rw [if_pos]
  refine le_min (by nlinarith) (by norm_num)

/-- Witness for `example_message_classified_scam` at ML score 0.9. -/
theorem example_message_classified_scam_witness :
    (Engine.analyze_message true (fun _ => (0.9 : ℚ))
        ("urgent your easypaisa account will be suspended verify otp now".toList)
        "auto").classification = "SCAM" :=
  (example_message_classified_scam 0.9 (by norm_num)).2.2.2.2


/-! ## C3: the rule-score formula -/


/--
C3 (counterexample).  The claim says the brand stage adds +0.15 once per
matched *category*; but on "easypaisa jazzcash" (two matching patterns of
the single category pakistan_financial) the engine's score is 0.30 — one
+0.15 per matching *pattern* — while the claim's per-category formula gives
0.15.
-/
theorem brand_score_counts_patterns_not_categories :
    (RuleDetector.analyze ("easypaisa jazzcash".toList)
        RuleDetector.someLangInfo).score = 0.3
      ∧ RuleDetector.claimPerCategoryScore (lowerStr ("easypaisa jazzcash".toList)) = 0.15
      ∧ (0.3 : ℚ) ≠ 0.15 := by
  have h1 : RuleDetector.brandMatchCount (lowerStr ("easypaisa jazzcash".toList)) = 2 := by
    decide
  have h1c : RuleDetector.BRANDS.countP
      (fun c => c.2.any (fun p => search p (lowerStr ("easypaisa jazzcash".toList)))) = 1 := by
    decide
  have h2 : RuleDetector.urgency_count (lowerStr ("easypaisa jazzcash".toList)) = 0 := by
    decide
  have h3 : (RuleDetector.sensitive_hit (lowerStr ("easypaisa jazzcash".toList))).isSome
      = false := by
    decide
  have h4 : search RuleDetector.URL_PATTERN (lowerStr ("easypaisa jazzcash".toList)) = false := by
    decide
  refine ⟨?_, ?_, by norm_num⟩
  · rw [RuleDetector.analyze_score_spec, RuleDetector.urgencyScoreQ,
      RuleDetector.sensitiveScoreQ, RuleDetector.urlScoreQ, h1, h2, h3, h4]
    norm_num [min_def]
  · rw [RuleDetector.claimPerCategoryScore, RuleDetector.urgencyScoreQ,
      RuleDetector.sensitiveScoreQ, RuleDetector.urlScoreQ, h1c, h2, h3, h4]
    norm_num [min_def]

/--
C3 (amended).  For every message, the rule score is
`min(0.15·(number of matching (category, pattern) pairs)
  + (urgency: min(match_count·0.10, 0.25) when any urgency match)
  + (flat 0.25 when some sensitive-data pattern matches, short-circuiting)
  + (flat 0.25 on a shortened-URL match), 1)` — i.e. brands contribute
+0.15 per matching *pattern*, not per category — the total always lies in
[0,1] (clamp holds even when everything matches), and `triggered_rules` and
`keywords` are deduplicated.
-/
theorem rule_score_formula (m : Str) (li : RuleDetector.LanguageInfo) :
    (RuleDetector.analyze m li).score
        = min ((0.15 : ℚ) * (RuleDetector.brandMatchCount (lowerStr m) : ℚ)
            + RuleDetector.urgencyScoreQ (lowerStr m)
            + RuleDetector.sensitiveScoreQ (lowerStr m)
            + RuleDetector.urlScoreQ (lowerStr m)) 1
      ∧ 0 ≤ (RuleDetector.analyze m li).score
      ∧ (RuleDetector.analyze m li).score ≤ 1
      ∧ (RuleDetector.analyze m li).triggered_rules.Nodup
      ∧ (RuleDetector.analyze m li).keywords.Nodup := by
  have hb : (0 : ℚ) ≤ 0.15 * (RuleDetector.brandMatchCount (lowerStr m) : ℚ) := by
    positivity
  have hu : (0 : ℚ) ≤ RuleDetector.urgencyScoreQ (lowerStr m) := by
    rw [RuleDetector.urgencyScoreQ]
    split
    · exact le_min (by positivity) (by norm_num)
    · exact le_refl 0
  have hs : (0 : ℚ) ≤ RuleDetector.sensitiveScoreQ (lowerStr m) := by
    rw [RuleDetector.sensitiveScoreQ]
    split <;> norm_num
  have hl : (0 : ℚ) ≤ RuleDetector.urlScoreQ (lowerStr m) := by
    rw [RuleDetector.urlScoreQ]
    split <;> norm_num
  refine ⟨RuleDetector.analyze_score_spec m li, ?_, ?_, ?_, ?_⟩
  · rw [RuleDetector.analyze_score_spec]
    exact le_min (by linarith) (by norm_num)
  · rw [RuleDetector.analyze_score_spec]
    exact min_le_right _ _
  · rw [RuleDetector.analyze_rules_spec]
    exact List.nodup_dedup _
  · rw [RuleDetector.analyze_kws_spec]
    exact List.nodup_dedup _


/-! ## Rule-trigger membership characterisation -/


theorem mem_ite_singleton {α : Type} (c : Prop) [Decidable c] (a b : α) :
    (b ∈ if c then [a] else []) ↔ c ∧ b = a := by
  split <;> simp [*]

theorem search_eq_true_iff_ne_nil (p : Pat) (t : Str) :
    search p t = true ↔ allMatches p t ≠ [] := by
  unfold search
  rw [Bool.not_eq_true']
  constructor
  · intro h hnil
    rw [hnil] at h
    simp at h
  · intro h
    rcases hm : (allMatches p t).isEmpty with _ | _
    · rfl
    · exact absurd (List.isEmpty_iff.mp hm) h

namespace RuleDetector

theorem search_wordPat_iff (w : String) (t : Str) :
    search (wordPat w) t = true ↔ WholeWordOccurs w.toList t := by
  rw [show wordPat w = ⟨[w.toList], true⟩ from rfl, search_bounded_iff]
  simp

theorem search_altPat_iff (ws : List String) (t : Str) :
    search (altPat ws) t = true ↔ ∃ w ∈ ws, WholeWordOccurs w.toList t := by
  rw [show altPat ws = ⟨ws.map String.toList, true⟩ from rfl, search_bounded_iff]
  constructor
  · rintro ⟨w, hw, hww⟩
    rcases List.mem_map.mp hw with ⟨w₀, hw₀, rfl⟩
    exact ⟨w₀, hw₀, hww⟩
  · rintro ⟨w₀, hw₀, hww⟩
    exact ⟨w₀.toList, List.mem_map.mpr ⟨w₀, hw₀, rfl⟩, hww⟩

theorem search_subPat_iff (ws : List String) (t : Str) :
    search (subPat ws) t = true ↔ ∃ w ∈ ws, SubstrOccurs w.toList t := by
  rw [show subPat ws = ⟨ws.map String.toList, false⟩ from rfl, search_unbounded_iff]
  constructor
  · rintro ⟨w, hw, hww⟩
    rcases List.mem_map.mp hw with ⟨w₀, hw₀, rfl⟩
    exact ⟨w₀, hw₀, hww⟩
  · rintro ⟨w₀, hw₀, hww⟩
    exact ⟨w₀.toList, List.mem_map.mpr ⟨w₀, hw₀, rfl⟩, hww⟩

theorem sensitive_hit_isSome_iff (t : Str) :
    (sensitive_hit t).isSome = true ↔ ∃ p ∈ SENSITIVE_DATA, search p t = true := by
  unfold sensitive_hit
  rw [List.findSome?_isSome_iff]
  constructor
  · rintro ⟨p, hp, hs⟩
    by_cases h : search p t
    · exact ⟨p, hp, h⟩
    · rw [if_neg h] at hs
      cases hs
  · rintro ⟨p, hp, h⟩
    exact ⟨p, hp, by rw [if_pos h]; rfl⟩

theorem urgency_count_pos_iff (t : Str) :
    0 < urgency_count t ↔ ∃ p ∈ URGENCY_KEYWORDS, search p t = true := by
  unfold urgency_count
  rw [Nat.pos_iff_ne_zero, Ne, List.sum_eq_zero_iff]
  constructor
  · intro h
    push_neg at h
    rcases h with ⟨x, hx, hxne⟩
    rcases List.mem_map.mp hx with ⟨p, hp, rfl⟩
    refine ⟨p, hp, ?_⟩
    rw [search_eq_true_iff_ne_nil]
    intro hnil
    rw [hnil] at hxne
    simp at hxne
  · rintro ⟨p, hp, hsp⟩
    rw [search_eq_true_iff_ne_nil] at hsp
    intro hall
    have := hall ((allMatches p t).length) (List.mem_map.mpr ⟨p, hp, rfl⟩)
    exact hsp (List.length_eq_zero.mp this)

theorem mem_analyze_rules (m : Str) (li : LanguageInfo) (s : String) :
    s ∈ (analyze m li).triggered_rules ↔
      ((∃ cp ∈ BRAND_PAIRS,
            search cp.2 (lowerStr m) = true ∧ s = "brand_impersonation_" ++ cp.1)
        ∨ (0 < urgency_count (lowerStr m) ∧ s = "urgency_language")
        ∨ ((sensitive_hit (lowerStr m)).isSome = true ∧ s = "sensitive_data_request")
        ∨ (search URL_PATTERN (lowerStr m) = true ∧ s = "shortened_url")) := by
  rw [analyze_rules_spec, List.mem_dedup]
  simp only [List.mem_append, brandRulesL, urgencyRulesL, sensitiveRulesL, urlRulesL,
    mem_ite_singleton, List.mem_map, List.mem_filter]
  constructor
  · rintro (((⟨cp, ⟨hcp, hse⟩, rfl⟩ | ⟨hu, rfl⟩) | ⟨hs, rfl⟩) | ⟨hl, rfl⟩)
    · exact Or.inl ⟨cp, hcp, hse, rfl⟩
    · exact Or.inr (Or.inl ⟨hu, rfl⟩)
    · exact Or.inr (Or.inr (Or.inl ⟨hs, rfl⟩))
    · exact Or.inr (Or.inr (Or.inr ⟨hl, rfl⟩))
  · rintro (⟨cp, hcp, hse, rfl⟩ | ⟨hu, rfl⟩ | ⟨hs, rfl⟩ | ⟨hl, rfl⟩)
    · exact Or.inl (Or.inl (Or.inl ⟨cp, ⟨hcp, hse⟩, rfl⟩))
    · exact Or.inl (Or.inl (Or.inr ⟨hu, rfl⟩))
    · exact Or.inl (Or.inr ⟨hs, rfl⟩)
    · exact Or.inr ⟨hl, rfl⟩

end RuleDetector

/-! ## C4: word-boundary matching -/


/--
C4 (counterexample).  The claim says every rule pattern matches only at
whole-word boundaries; but the shortened-URL pattern `bit\.ly|tinyurl`
carries no `\b` anchors: the message "notinyurls" contains "tinyurl" only
strictly inside a longer word (no whole-word occurrence of either URL
keyword exists), yet the shortened_url rule triggers.
-/
theorem url_rule_fires_inside_word :
    "shortened_url" ∈ (RuleDetector.analyze ("notinyurls".toList)
        RuleDetector.someLangInfo).triggered_rules
      ∧ ¬ WholeWordOccurs ("tinyurl".toList) (lowerStr ("notinyurls".toList))
      ∧ ¬ WholeWordOccurs ("bit.ly".toList) (lowerStr ("notinyurls".toList)) := by
  refine ⟨by decide, ?_, ?_⟩
  · intro h
    have hs : search (wordPat "tinyurl") (lowerStr ("notinyurls".toList)) = true :=
      (RuleDetector.search_wordPat_iff _ _).mpr h
    exact absurd hs (by decide)
  · intro h
    have hs : search (wordPat "bit.ly") (lowerStr ("notinyurls".toList)) = true :=
      (RuleDetector.search_wordPat_iff _ _).mpr h
    exact absurd hs (by decide)

/--
C4 (amended).  Every rule category matches case-insensitively (matching is
performed on the lowercased message).  The brand, urgency and sensitive-data
patterns match only at whole-word boundaries: their rules trigger exactly
when one of their keywords occurs as a whole word.  The shortened-URL
pattern, however, is an unanchored substring match: it triggers exactly when
"bit.ly" or "tinyurl" occurs anywhere, including strictly inside a longer
word.
-/
theorem rule_matching_boundary_characterisation (m : Str)
    (li : RuleDetector.LanguageInfo) :
    ("brand_impersonation_pakistan_financial"
          ∈ (RuleDetector.analyze m li).triggered_rules ↔
        ∃ w ∈ (["easypaisa", "jazzcash", "hbl", "ubl", "meezan", "ally",
                "faysal", "habib"] : List String),
          WholeWordOccurs w.toList (lowerStr m))
      ∧ ("brand_impersonation_global_financial"
            ∈ (RuleDetector.analyze m li).triggered_rules ↔
          ∃ w ∈ (["paypal", "stripe", "western union"] : List String),
            WholeWordOccurs w.toList (lowerStr m))
      ∧ ("brand_impersonation_global_tech"
            ∈ (RuleDetector.analyze m li).triggered_rules ↔
          ∃ w ∈ (["whatsapp", "google", "amazon"] : List String),
            WholeWordOccurs w.toList (lowerStr m))
      ∧ ("brand_impersonation_government"
            ∈ (RuleDetector.analyze m li).triggered_rules ↔
          ∃ w ∈ (["fbr", "nadra", "irs"] : List String),
            WholeWordOccurs w.toList (lowerStr m))
      ∧ ("urgency_language"
            ∈ (RuleDetector.analyze m li).triggered_rules ↔
          ∃ w ∈ (["urgently", "urgent", "immediately", "asap", "now", "today",
                  "expire", "expiring", "expired"] : List String),
            WholeWordOccurs w.toList (lowerStr m))
      ∧ ("sensitive_data_request"
            ∈ (RuleDetector.analyze m li).triggered_rules ↔
          ∃ w ∈ (["otp", "pin", "password", "cvv", "cnic"] : List String),
            WholeWordOccurs w.toList (lowerStr m))
      ∧ ("shortened_url"
            ∈ (RuleDetector.analyze m li).triggered_rules ↔
          (SubstrOccurs ("bit.ly".toList) (lowerStr m)
            ∨ SubstrOccurs ("tinyurl".toList) (lowerStr m))) := by
  refine ⟨?_, ?_, ?_, ?_, ?_, ?_, ?_⟩
  · rw [RuleDetector.mem_analyze_rules, RuleDetector.urgency_count_pos_iff,
      RuleDetector.sensitive_hit_isSome_iff]
    simp [RuleDetector.BRAND_PAIRS, RuleDetector.BRANDS, RuleDetector.search_wordPat_iff]
  · rw [RuleDetector.mem_analyze_rules, RuleDetector.urgency_count_pos_iff,
      RuleDetector.sensitive_hit_isSome_iff]
    simp [RuleDetector.BRAND_PAIRS, RuleDetector.BRANDS, RuleDetector.search_wordPat_iff]
  · rw [RuleDetector.mem_analyze_rules, RuleDetector.urgency_count_pos_iff,
      RuleDetector.sensitive_hit_isSome_iff]
    simp [RuleDetector.BRAND_PAIRS, RuleDetector.BRANDS, RuleDetector.search_wordPat_iff]
  · rw [RuleDetector.mem_analyze_rules, RuleDetector.urgency_count_pos_iff,
      RuleDetector.sensitive_hit_isSome_iff]
    simp [RuleDetector.BRAND_PAIRS, RuleDetector.BRANDS, RuleDetector.search_wordPat_iff]
  · rw [RuleDetector.mem_analyze_rules, RuleDetector.urgency_count_pos_iff]
    simp [RuleDetector.BRAND_PAIRS, RuleDetector.BRANDS, RuleDetector.URGENCY_KEYWORDS,
      RuleDetector.search_wordPat_iff, RuleDetector.search_altPat_iff, or_assoc]
  · rw [RuleDetector.mem_analyze_rules, RuleDetector.sensitive_hit_isSome_iff]
    simp [RuleDetector.BRAND_PAIRS, RuleDetector.BRANDS, RuleDetector.SENSITIVE_DATA,
      RuleDetector.search_wordPat_iff]
  · rw [RuleDetector.mem_analyze_rules]
    simp [RuleDetector.BRAND_PAIRS, RuleDetector.BRANDS, RuleDetector.URL_PATTERN,
      RuleDetector.search_subPat_iff]


/-! ## C6: anonymisation ordering -/


theorem substAux_nil (m : Analytics.Matcher) (fuel : Nat) (prev : Option Char) :
    Analytics.substAux m fuel prev [] = [] := by
  cases fuel <;> rfl

/--
C6 (counterexample).  The claim says the card-number pattern is applied
before the generic long-digit-run (phone) check; in the source the phone
pattern runs first, so an unseparated 16-digit card-like sequence is
consumed by the digit-run substitution and becomes [PHONE], not [CARD] —
the claim's card-first order (modelled separately) would produce [CARD].
-/
theorem card_sequence_redacted_as_phone :
    Analytics.anonymize_message ("card 1234567890123456 now".toList)
        = "card [PHONE] now".toList
      ∧ Analytics.claimCardFirstAnonymize ("card 1234567890123456 now".toList)
        = "card [CARD] now".toList
      ∧ Analytics.anonymize_message ("card 1234567890123456 now".toList)
        ≠ Analytics.claimCardFirstAnonymize ("card 1234567890123456 now".toList) := by
  refine ⟨by decide, by decide, by decide⟩

/--
C6 (amended).  The anonymisation order is: phone (long digit run), CNIC,
email, card, URL.  Because the digit-run pattern runs first, every message
that is one unbroken digit run of length ≥ 10 (in particular a 16-digit
card number without separators) is redacted as [PHONE]; a card number
written with separators does not match the digit-run pattern and is
redacted as [CARD].
-/
theorem digit_run_redacted_as_phone (d : Str) (hlen : 10 ≤ d.length)
    (hdig : ∀ c ∈ d, c.isDigit = true) :
    Analytics.anonymize_message d = "[PHONE]".toList
      ∧ Analytics.anonymize_message ("1234-5678-9012-3456".toList) = "[CARD]".toList := by
  have hrun : d.takeWhile Char.isDigit = d := List.takeWhile_eq_self_iff.mpr hdig
  have h1 : Analytics.subst Analytics.phoneMatcher d = "[PHONE]".toList := by
    cases d with
    | nil => simp at hlen
    | cons c rest =>
      show Analytics.substAux Analytics.phoneMatcher (c :: rest).length none (c :: rest)
          = "[PHONE]".toList
      have hm : Analytics.phoneMatcher none (c :: rest)
          = some ((c :: rest).length, "[PHONE]".toList) := by
        rw [Analytics.phoneMatcher]
        rw [hrun]
        rw [if_pos]
        rw [List.drop_length]
        simp only [Bool.and_eq_true, Bool.not_eq_true']
        refine ⟨⟨rfl, ?_⟩, rfl⟩
        exact decide_eq_true hlen
      rw [List.length_cons, Analytics.substAux]
      simp only [hm]
      rw [if_neg (by simp)]
      rw [List.drop_length, substAux_nil, List.append_nil]
  show Analytics.subst Analytics.urlMatcher (Analytics.subst Analytics.cardMatcher
      (Analytics.subst Analytics.emailMatcher (Analytics.subst Analytics.cnicMatcher
        (Analytics.subst Analytics.phoneMatcher d)))) = "[PHONE]".toList
    ∧ _
  rw [h1]
  exact ⟨by decide, by decide⟩

/-- Witness for `digit_run_redacted_as_phone` at a concrete 16-digit string. -/
theorem digit_run_redacted_as_phone_witness :
    Analytics.anonymize_message ("1234567890123456".toList) = "[PHONE]".toList
      ∧ Analytics.anonymize_message ("1234-5678-9012-3456".toList) = "[CARD]".toList :=
  digit_run_redacted_as_phone ("1234567890123456".toList) (by decide) (by decide)


/-! ## Rounding and stable-sort lemmas -/


theorem ratFloor_eq_floor (q : ℚ) : q.floor = ⌊q⌋ := by
  rw [Rat.floor_def' q, Rat.floor_def]

theorem roundHalfEven_intCast (n : ℤ) : Engine.roundHalfEven (n : ℚ) = n := by
  simp only [Engine.roundHalfEven]
  rw [ratFloor_eq_floor, Int.floor_intCast, sub_self,
    if_pos (by norm_num : (0 : ℚ) < 1 / 2)]

theorem pyRound_natMul100 (r : ℕ) :
    Engine.pyRound ((r : ℚ) * 100) 2 = (r : ℚ) * 100 := by
  rw [Engine.pyRound]
  rw [show ((r : ℚ) * 100) * 10 ^ 2 = (((r * 10000 : ℕ) : ℤ) : ℚ) by push_cast; ring]
  rw [roundHalfEven_intCast]
  push_cast
  rw [div_eq_iff (by norm_num : (10 : ℚ) ^ 2 ≠ 0)]
  ring

theorem mem_insertDescBy {α β : Type} [LinearOrder β] (key : α → β) (a x : α)
    (l : List α) :
    x ∈ Analytics.insertDescBy key a l ↔ x = a ∨ x ∈ l := by
  induction l with
  | nil => simp [Analytics.insertDescBy]
  | cons b t ih =>
    rw [Analytics.insertDescBy]
    split
    · simp [List.mem_cons]
    · rw [List.mem_cons, ih, List.mem_cons]
      tauto

theorem mem_foldl_insertDescBy {α β : Type} [LinearOrder β] (key : α → β)
    (l : List α) :
    ∀ (acc : List α) (x : α),
      (x ∈ l.foldl (fun acc a => Analytics.insertDescBy key a acc) acc)
        ↔ x ∈ acc ∨ x ∈ l := by
  induction l with
  | nil => simp
  | cons b t ih =>
    intro acc x
    rw [List.foldl_cons, ih, mem_insertDescBy, List.mem_cons]
    tauto

theorem mem_stableSortDescBy {α β : Type} [LinearOrder β] (key : α → β)
    (l : List α) (x : α) :
    x ∈ Analytics.stableSortDescBy key l ↔ x ∈ l := by
  rw [Analytics.stableSortDescBy, mem_foldl_insertDescBy]
  simp

theorem pairwise_insertDescBy {α β : Type} [LinearOrder β] (key : α → β) (a : α)
    (l : List α) (h : l.Pairwise (fun x y => key y ≤ key x)) :
    (Analytics.insertDescBy key a l).Pairwise (fun x y => key y ≤ key x) := by
  induction l with
  | nil => simp [Analytics.insertDescBy]
  | cons b t ih =>
    rcases List.pairwise_cons.mp h with ⟨hb, ht⟩
    rw [Analytics.insertDescBy]
    split
    · next hlt =>
      rw [List.pairwise_cons]
      refine ⟨?_, h⟩
      intro y hy
      rcases List.mem_cons.mp hy with rfl | hy'
      · exact le_of_lt hlt
      · exact le_trans (hb y hy') (le_of_lt hlt)
    · next hge =>
      rw [List.pairwise_cons]
      refine ⟨?_, ih ht⟩
      intro y hy
      rcases (mem_insertDescBy key a y t).mp hy with rfl | hy'
      · exact not_lt.mp hge
      · exact hb y hy'

theorem pairwise_foldl_insertDescBy {α β : Type} [LinearOrder β] (key : α → β)
    (l : List α) :
    ∀ acc : List α, acc.Pairwise (fun x y => key y ≤ key x) →
      (l.foldl (fun acc a => Analytics.insertDescBy key a acc) acc).Pairwise
        (fun x y => key y ≤ key x) := by
  induction l with
  | nil =>
    intro acc h
    simpa using h
  | cons b t ih =>
    intro acc h
    rw [List.foldl_cons]
    exact ih _ (pairwise_insertDescBy key b acc h)

theorem pairwise_stableSortDescBy {α β : Type} [LinearOrder β] (key : α → β)
    (l : List α) :
    (Analytics.stableSortDescBy key l).Pairwise (fun x y => key y ≤ key x) :=
  pairwise_foldl_insertDescBy key l [] (by simp)


/-! ## C7: emerging threats -/


/--
C7 (amended).  `get_emerging_threats` compares the top-pattern lists of
`statistics(24)` and `statistics(48)` — the older window spans the whole
last 48 hours and therefore *contains* the recent records.  The result has
at most 5 entries, is sorted by change percentage descending, and every
entry comes from the recent top-pattern list with `previous_count` the
pattern's count in the older top-10 list (0 exactly when absent from that
list), included iff `previous_count = 0` or the recent count exceeds 1.5×
the older count, with `change_percentage = round((recent − older) /
max(older, 1) · 100, 2)`; in particular `previous_count = 0` forces
`change_percentage = recent_count · 100`.
-/
theorem emerging_threats_characterisation (log : List Analytics.DetectionRecord)
    (now : ℤ) :
    (Analytics.get_emerging_threats log now).length ≤ 5
      ∧ (Analytics.get_emerging_threats log now).Pairwise
          (fun a b => b.change_percentage ≤ a.change_percentage)
      ∧ ∀ e ∈ Analytics.get_emerging_threats log now,
          ((e.pattern, e.recent_count) ∈ Analytics.top_scam_patterns log now 24
            ∧ e.previous_count
                = ((Analytics.top_scam_patterns log now 48).lookup e.pattern).getD 0
            ∧ (e.previous_count = 0
                ∨ (e.previous_count : ℚ) * 1.5 < (e.recent_count : ℚ))
            ∧ e.change_percentage
                = Engine.pyRound (((e.recent_count : ℚ) - (e.previous_count : ℚ))
                    / ((max e.previous_count 1 : ℕ) : ℚ) * 100) 2
            ∧ (e.previous_count = 0 →
                e.change_percentage = (e.recent_count : ℚ) * 100)) := by
  have hrepr : Analytics.get_emerging_threats log now
      = (Analytics.stableSortDescBy (fun e => e.change_percentage)
          ((Analytics.top_scam_patterns log now 24).filterMap
            (Analytics.emergingEntry (Analytics.top_scam_patterns log now 48)))).take 5 :=
    rfl
  refine ⟨?_, ?_, ?_⟩
  · rw [hrepr]
    exact List.length_take_le 5 _
  · rw [hrepr]
    exact List.Pairwise.take (pairwise_stableSortDescBy _ _)
  · intro e he
    rw [hrepr] at he
    have he2 : e ∈ Analytics.stableSortDescBy (fun e => e.change_percentage)
        ((Analytics.top_scam_patterns log now 24).filterMap
          (Analytics.emergingEntry (Analytics.top_scam_patterns log now 48))) :=
      List.take_subset _ _ he
    have he3 := (mem_stableSortDescBy _ _ _).mp he2
    rcases List.mem_filterMap.mp he3 with ⟨pc, hpc, hfe⟩
    rw [Analytics.emergingEntry] at hfe
    split at hfe
    · next hcond =>
      have he4 := Option.some.inj hfe
      subst he4
      refine ⟨by simpa using hpc, rfl, hcond, rfl, ?_⟩
      intro h0
      show Engine.pyRound _ 2 = _
      rw [show (((Analytics.top_scam_patterns log now 48).lookup pc.1).getD 0 : ℕ)
            = 0 from h0]
      rw [show ((((pc.2 : ℚ)) - ((0 : ℕ) : ℚ)) / ((max 0 1 : ℕ) : ℚ) * 100)
            = (pc.2 : ℚ) * 100 by norm_num]
      exact pyRound_natMul100 pc.2
    · cases hfe

/--
C7 (counterexample).  The claim says a pattern absent from the 24–48h
window but present in the 0–24h window is returned with `older_count = 0`
and `change_percentage = recent·100`.  On a log with a single SCAM record at
hour 0 (pattern in the last 24 hours, no record in the 24–48h band), the
older window `statistics(48)` *includes* the recent record, so the pattern's
older count equals its recent count and `get_emerging_threats` returns no
entry at all.
-/
theorem emerging_threats_overlap_counterexample :
    Analytics.top_scam_patterns Analytics.singleRecordLog 0 24
        = [("urgency_language", 1)]
      ∧ Analytics.singleRecordLog.filter (fun d => d.timestamp ≤ 0 - 24) = []
      ∧ Analytics.get_emerging_threats Analytics.singleRecordLog 0 = [] := by
  have h24 : Analytics.top_scam_patterns Analytics.singleRecordLog 0 24
      = [("urgency_language", 1)] := by decide
  have hlook : (((Analytics.top_scam_patterns Analytics.singleRecordLog 0 48).lookup
      "urgency_language").getD 0) = 1 := by decide
  have hcond : ¬ ((((Analytics.top_scam_patterns Analytics.singleRecordLog 0 48).lookup
        "urgency_language").getD 0) = 0
      ∨ ((((Analytics.top_scam_patterns Analytics.singleRecordLog 0 48).lookup
        "urgency_language").getD 0 : ℕ) : ℚ) * 1.5
          < ((((("urgency_language", 1) : String × ℕ)).2 : ℕ) : ℚ)) := by
    rw [hlook]
    push_neg
    norm_num
  have hentry : Analytics.emergingEntry
      (Analytics.top_scam_patterns Analytics.singleRecordLog 0 48)
      ("urgency_language", 1) = none := by
    rw [Analytics.emergingEntry]
    rw [if_neg hcond]
  refine ⟨h24, by decide, ?_⟩
  show (Analytics.stableSortDescBy (fun e => e.change_percentage)
      ((Analytics.top_scam_patterns Analytics.singleRecordLog 0 24).filterMap
        (Analytics.emergingEntry
          (Analytics.top_scam_patterns Analytics.singleRecordLog 0 48)))).take 5 = []
  rw [h24]
  simp only [List.filterMap_cons, hentry, List.filterMap_nil]
  rfl

/-- The emerging-threat list of the eleven-pattern example log: the new
pattern p0 is pushed out of the older window's top-10 list, so it is
reported with `previous_count = 0` and `change_percentage = 100`. -/
theorem emerging_elevenPatternLog_eq :
    Analytics.get_emerging_threats Analytics.elevenPatternLog 0
      = [⟨"p0", "P0", 1, 0, 100⟩] := by
  have h24 : Analytics.top_scam_patterns Analytics.elevenPatternLog 0 24
      = [("p0", 1)] := by decide
  have hlook : (((Analytics.top_scam_patterns Analytics.elevenPatternLog 0 48).lookup
      "p0").getD 0) = 0 := by decide
  have hchange : Engine.pyRound (((((("p0", 1) : String × ℕ)).2 : ℚ) - ((0 : ℕ) : ℚ))
      / ((max 0 1 : ℕ) : ℚ) * 100) 2 = 100 := by
    rw [show (((((("p0", 1) : String × ℕ)).2 : ℚ) - ((0 : ℕ) : ℚ))
        / ((max 0 1 : ℕ) : ℚ) * 100) = ((1 : ℕ) : ℚ) * 100 by norm_num]
    rw [pyRound_natMul100]
    norm_num
  have hentry : Analytics.emergingEntry
      (Analytics.top_scam_patterns Analytics.elevenPatternLog 0 48)
      ("p0", 1) = some ⟨"p0", "P0", 1, 0, 100⟩ := by
    rw [Analytics.emergingEntry]
    rw [if_pos (Or.inl hlook)]
    rw [hlook]
    rw [hchange]
    rfl
  show (Analytics.stableSortDescBy (fun e => e.change_percentage)
      ((Analytics.top_scam_patterns Analytics.elevenPatternLog 0 24).filterMap
        (Analytics.emergingEntry
          (Analytics.top_scam_patterns Analytics.elevenPatternLog 0 48)))).take 5 = _
  rw [h24]
  simp only [List.filterMap_cons, hentry, List.filterMap_nil]
  rfl

/-- Witness for `emerging_threats_characterisation` at the eleven-pattern
example log, whose emerging list contains exactly the entry
⟨p0, 1 recent, 0 older, +100 %⟩. -/
theorem emerging_threats_characterisation_witness :
    ((⟨"p0", "P0", 1, 0, 100⟩ : Analytics.EmergingThreat).pattern,
        (⟨"p0", "P0", 1, 0, 100⟩ : Analytics.EmergingThreat).recent_count)
          ∈ Analytics.top_scam_patterns Analytics.elevenPatternLog 0 24
      ∧ (⟨"p0", "P0", 1, 0, 100⟩ : Analytics.EmergingThreat).previous_count
          = ((Analytics.top_scam_patterns Analytics.elevenPatternLog 0 48).lookup
              (⟨"p0", "P0", 1, 0, 100⟩ : Analytics.EmergingThreat).pattern).getD 0
      ∧ ((⟨"p0", "P0", 1, 0, 100⟩ : Analytics.EmergingThreat).previous_count = 0
          ∨ ((⟨"p0", "P0", 1, 0, 100⟩ : Analytics.EmergingThreat).previous_count : ℚ) * 1.5
            < ((⟨"p0", "P0", 1, 0, 100⟩ : Analytics.EmergingThreat).recent_count : ℚ))
      ∧ (⟨"p0", "P0", 1, 0, 100⟩ : Analytics.EmergingThreat).change_percentage
          = Engine.pyRound
              ((((⟨"p0", "P0", 1, 0, 100⟩ : Analytics.EmergingThreat).recent_count : ℚ)
                  - ((⟨"p0", "P0", 1, 0, 100⟩ : Analytics.EmergingThreat).previous_count : ℚ))
                / ((max (⟨"p0", "P0", 1, 0, 100⟩ : Analytics.EmergingThreat).previous_count 1 : ℕ) : ℚ)
                * 100) 2
      ∧ ((⟨"p0", "P0", 1, 0, 100⟩ : Analytics.EmergingThreat).previous_count = 0 →
          (⟨"p0", "P0", 1, 0, 100⟩ : Analytics.EmergingThreat).change_percentage
            = ((⟨"p0", "P0", 1, 0, 100⟩ : Analytics.EmergingThreat).recent_count : ℚ) * 100) :=
  (emerging_threats_characterisation Analytics.elevenPatternLog 0).2.2
    ⟨"p0", "P0", 1, 0, 100⟩
    (by rw [emerging_elevenPatternLog_eq]; exact List.mem_singleton_self _)


end ScamShield
